import Mathlib

/-!
A verification development for the input-remapping core of the RazerControls
repository.  The Python sources are shallowly embedded: Python dicts become
association lists with replace-or-append insertion, Python sets become
duplicate-free lists in insertion order, and the event sink (`uinput.write`)
becomes the list of `(code, value)` key writes an engine call performs.
-/

set_option maxRecDepth 4000

namespace RazerControls

/-- Model of a Python `dict` assignment `d[k] = v`: replace the value at an
existing key in place, otherwise append the pair. -/
def dictInsert {α β : Type} [DecidableEq α] (d : List (α × β)) (k : α) (v : β) :
    List (α × β) :=
  match d with
  | [] => [(k, v)]
  | (k', v') :: rest => if k' = k then (k, v) :: rest else (k', v') :: dictInsert rest k v

/-- Model of Python `d.get(k)` / `d[k]` lookup. -/
def dictFind? {α β : Type} [DecidableEq α] (d : List (α × β)) (k : α) : Option β :=
  match d with
  | [] => none
  | (k', v') :: rest => if k' = k then some v' else dictFind? rest k

/-- Modelled from the spec: the `ActionType` enum of the profile schema
(`crates/profile_schema/schema.py` is absent from `src/`; §3 of the spec and
the engine's dispatch give its five variants). -/
inductive ActionType
  | KEY
  | CHORD
  | MACRO
  | PASSTHROUGH
  | DISABLED
deriving DecidableEq, Repr

/-- Modelled from the spec: the `MacroStepType` enum of the profile schema
(absent `schema.py`; §3 lists the five step variants). -/
inductive MacroStepType
  | KEY_DOWN
  | KEY_UP
  | KEY_PRESS
  | DELAY
  | TEXT
deriving DecidableEq, Repr

/-- Modelled from the spec: a `MacroStep` record (absent `schema.py`; §3).
Optional fields default to `none` as Python dataclass fields default to `None`. -/
structure MacroStep where
  type : MacroStepType
  key : Option String := none
  delay_ms : Option Nat := none
  text : Option String := none
deriving DecidableEq, Repr

/-- Modelled from the spec: a `MacroAction` record (absent `schema.py`; §3). -/
structure MacroAction where
  id : String
  name : String
  steps : List MacroStep := []
  repeat_count : Nat := 1
  repeat_delay_ms : Nat := 0
deriving DecidableEq, Repr

/-- Modelled from the spec: a `Binding` record (absent `schema.py`; §3). -/
structure Binding where
  input_code : String
  action_type : ActionType
  output_keys : List String := []
  macro_id : Option String := none
deriving DecidableEq, Repr

/-- Modelled from the spec: a `Layer` record (absent `schema.py`; §3). -/
structure Layer where
  id : String
  name : String
  bindings : List Binding := []
  hold_modifier_input_code : Option String := none
deriving DecidableEq, Repr

/-- Modelled from the spec: a `Profile` record (absent `schema.py`; §3).  Only
the fields the remap engine and recorder read are modelled. -/
structure Profile where
  id : String
  name : String
  layers : List Layer := []
  macros : List MacroAction := []
deriving DecidableEq, Repr

/-!
## Keycode map — `src/crates/keycode_map/mapping.py`

`EVDEV_TO_SCHEMA` is built in the source from a dict literal followed by
generated assignments for letters, digits and numpad keys; the generated
entries are written out literally below in the order the loops produce them.
-/

/-- The explicit dict-literal part of `EVDEV_TO_SCHEMA` (`mapping.py`). -/
def EVDEV_TO_SCHEMA_literal : List (String × String) :=
  [("BTN_LEFT", "MOUSE_LEFT"), ("BTN_RIGHT", "MOUSE_RIGHT"),
   ("BTN_MIDDLE", "MOUSE_MIDDLE"), ("BTN_SIDE", "MOUSE_SIDE"),
   ("BTN_EXTRA", "MOUSE_EXTRA"), ("BTN_FORWARD", "MOUSE_FORWARD"),
   ("BTN_BACK", "MOUSE_BACK"), ("BTN_TASK", "MOUSE_TASK"),
   ("KEY_LEFTCTRL", "CTRL"), ("KEY_RIGHTCTRL", "CTRL_R"),
   ("KEY_LEFTSHIFT", "SHIFT"), ("KEY_RIGHTSHIFT", "SHIFT_R"),
   ("KEY_LEFTALT", "ALT"), ("KEY_RIGHTALT", "ALT_R"),
   ("KEY_LEFTMETA", "META"), ("KEY_RIGHTMETA", "META_R"),
   ("KEY_ESC", "ESC"), ("KEY_TAB", "TAB"), ("KEY_CAPSLOCK", "CAPS"),
   ("KEY_ENTER", "ENTER"), ("KEY_SPACE", "SPACE"), ("KEY_BACKSPACE", "BACKSPACE"),
   ("KEY_DELETE", "DELETE"), ("KEY_INSERT", "INSERT"), ("KEY_HOME", "HOME"),
   ("KEY_END", "END"), ("KEY_PAGEUP", "PAGEUP"), ("KEY_PAGEDOWN", "PAGEDOWN"),
   ("KEY_UP", "UP"), ("KEY_DOWN", "DOWN"), ("KEY_LEFT", "LEFT"),
   ("KEY_RIGHT", "RIGHT"),
   ("KEY_F1", "F1"), ("KEY_F2", "F2"), ("KEY_F3", "F3"), ("KEY_F4", "F4"),
   ("KEY_F5", "F5"), ("KEY_F6", "F6"), ("KEY_F7", "F7"), ("KEY_F8", "F8"),
   ("KEY_F9", "F9"), ("KEY_F10", "F10"), ("KEY_F11", "F11"), ("KEY_F12", "F12"),
   ("KEY_F13", "F13"), ("KEY_F14", "F14"), ("KEY_F15", "F15"), ("KEY_F16", "F16"),
   ("KEY_F17", "F17"), ("KEY_F18", "F18"), ("KEY_F19", "F19"), ("KEY_F20", "F20"),
   ("KEY_F21", "F21"), ("KEY_F22", "F22"), ("KEY_F23", "F23"), ("KEY_F24", "F24"),
   ("KEY_MUTE", "MUTE"), ("KEY_VOLUMEDOWN", "VOL_DOWN"), ("KEY_VOLUMEUP", "VOL_UP"),
   ("KEY_PLAYPAUSE", "PLAY_PAUSE"), ("KEY_STOPCD", "STOP"),
   ("KEY_PREVIOUSSONG", "PREV_TRACK"), ("KEY_NEXTSONG", "NEXT_TRACK"),
   ("KEY_SYSRQ", "PRINT_SCREEN"), ("KEY_SCROLLLOCK", "SCROLL_LOCK"),
   ("KEY_PAUSE", "PAUSE")]

/-- The entries appended by the source's letter loop (`KEY_A .. KEY_Z`). -/
def EVDEV_TO_SCHEMA_letters : List (String × String) :=
  [("KEY_A", "A"), ("KEY_B", "B"), ("KEY_C", "C"), ("KEY_D", "D"),
   ("KEY_E", "E"), ("KEY_F", "F"), ("KEY_G", "G"), ("KEY_H", "H"),
   ("KEY_I", "I"), ("KEY_J", "J"), ("KEY_K", "K"), ("KEY_L", "L"),
   ("KEY_M", "M"), ("KEY_N", "N"), ("KEY_O", "O"), ("KEY_P", "P"),
   ("KEY_Q", "Q"), ("KEY_R", "R"), ("KEY_S", "S"), ("KEY_T", "T"),
   ("KEY_U", "U"), ("KEY_V", "V"), ("KEY_W", "W"), ("KEY_X", "X"),
   ("KEY_Y", "Y"), ("KEY_Z", "Z")]

/-- The entries appended by the source's digit loop (`KEY_0 .. KEY_9`). -/
def EVDEV_TO_SCHEMA_digits : List (String × String) :=
  [("KEY_0", "0"), ("KEY_1", "1"), ("KEY_2", "2"), ("KEY_3", "3"),
   ("KEY_4", "4"), ("KEY_5", "5"), ("KEY_6", "6"), ("KEY_7", "7"),
   ("KEY_8", "8"), ("KEY_9", "9")]

/-- The entries appended by the source's numpad loop and the subsequent
explicit numpad / punctuation assignments. -/
def EVDEV_TO_SCHEMA_numpad_punct : List (String × String) :=
  [("KEY_KP0", "NUM_0"), ("KEY_KP1", "NUM_1"), ("KEY_KP2", "NUM_2"),
   ("KEY_KP3", "NUM_3"), ("KEY_KP4", "NUM_4"), ("KEY_KP5", "NUM_5"),
   ("KEY_KP6", "NUM_6"), ("KEY_KP7", "NUM_7"), ("KEY_KP8", "NUM_8"),
   ("KEY_KP9", "NUM_9"),
   ("KEY_KPENTER", "NUM_ENTER"), ("KEY_KPPLUS", "NUM_PLUS"),
   ("KEY_KPMINUS", "NUM_MINUS"), ("KEY_KPASTERISK", "NUM_MULT"),
   ("KEY_KPSLASH", "NUM_DIV"), ("KEY_KPDOT", "NUM_DOT"),
   ("KEY_NUMLOCK", "NUM_LOCK"),
   ("KEY_MINUS", "MINUS"), ("KEY_EQUAL", "EQUAL"),
   ("KEY_LEFTBRACE", "LBRACKET"), ("KEY_RIGHTBRACE", "RBRACKET"),
   ("KEY_SEMICOLON", "SEMICOLON"), ("KEY_APOSTROPHE", "APOSTROPHE"),
   ("KEY_GRAVE", "GRAVE"), ("KEY_BACKSLASH", "BACKSLASH"),
   ("KEY_COMMA", "COMMA"), ("KEY_DOT", "DOT"), ("KEY_SLASH", "SLASH")]

/-- `EVDEV_TO_SCHEMA` (`mapping.py`): the literal dict followed by the
generated assignments, with Python `d[k] = v` semantics. -/
def EVDEV_TO_SCHEMA_build : List (String × String) :=
  (EVDEV_TO_SCHEMA_letters ++ EVDEV_TO_SCHEMA_digits ++ EVDEV_TO_SCHEMA_numpad_punct).foldl
    (fun d kv => dictInsert d kv.1 kv.2) EVDEV_TO_SCHEMA_literal

/-- The table `EVDEV_TO_SCHEMA_build` evaluates to, written out so that later
definitions evaluate quickly; `EVDEV_TO_SCHEMA_computes` proves the two equal. -/
def EVDEV_TO_SCHEMA : List (String × String) :=
  [("BTN_LEFT", "MOUSE_LEFT"),
   ("BTN_RIGHT", "MOUSE_RIGHT"),
   ("BTN_MIDDLE", "MOUSE_MIDDLE"),
   ("BTN_SIDE", "MOUSE_SIDE"),
   ("BTN_EXTRA", "MOUSE_EXTRA"),
   ("BTN_FORWARD", "MOUSE_FORWARD"),
   ("BTN_BACK", "MOUSE_BACK"),
   ("BTN_TASK", "MOUSE_TASK"),
   ("KEY_LEFTCTRL", "CTRL"),
   ("KEY_RIGHTCTRL", "CTRL_R"),
   ("KEY_LEFTSHIFT", "SHIFT"),
   ("KEY_RIGHTSHIFT", "SHIFT_R"),
   ("KEY_LEFTALT", "ALT"),
   ("KEY_RIGHTALT", "ALT_R"),
   ("KEY_LEFTMETA", "META"),
   ("KEY_RIGHTMETA", "META_R"),
   ("KEY_ESC", "ESC"),
   ("KEY_TAB", "TAB"),
   ("KEY_CAPSLOCK", "CAPS"),
   ("KEY_ENTER", "ENTER"),
   ("KEY_SPACE", "SPACE"),
   ("KEY_BACKSPACE", "BACKSPACE"),
   ("KEY_DELETE", "DELETE"),
   ("KEY_INSERT", "INSERT"),
   ("KEY_HOME", "HOME"),
   ("KEY_END", "END"),
   ("KEY_PAGEUP", "PAGEUP"),
   ("KEY_PAGEDOWN", "PAGEDOWN"),
   ("KEY_UP", "UP"),
   ("KEY_DOWN", "DOWN"),
   ("KEY_LEFT", "LEFT"),
   ("KEY_RIGHT", "RIGHT"),
   ("KEY_F1", "F1"),
   ("KEY_F2", "F2"),
   ("KEY_F3", "F3"),
   ("KEY_F4", "F4"),
   ("KEY_F5", "F5"),
   ("KEY_F6", "F6"),
   ("KEY_F7", "F7"),
   ("KEY_F8", "F8"),
   ("KEY_F9", "F9"),
   ("KEY_F10", "F10"),
   ("KEY_F11", "F11"),
   ("KEY_F12", "F12"),
   ("KEY_F13", "F13"),
   ("KEY_F14", "F14"),
   ("KEY_F15", "F15"),
   ("KEY_F16", "F16"),
   ("KEY_F17", "F17"),
   ("KEY_F18", "F18"),
   ("KEY_F19", "F19"),
   ("KEY_F20", "F20"),
   ("KEY_F21", "F21"),
   ("KEY_F22", "F22"),
   ("KEY_F23", "F23"),
   ("KEY_F24", "F24"),
   ("KEY_MUTE", "MUTE"),
   ("KEY_VOLUMEDOWN", "VOL_DOWN"),
   ("KEY_VOLUMEUP", "VOL_UP"),
   ("KEY_PLAYPAUSE", "PLAY_PAUSE"),
   ("KEY_STOPCD", "STOP"),
   ("KEY_PREVIOUSSONG", "PREV_TRACK"),
   ("KEY_NEXTSONG", "NEXT_TRACK"),
   ("KEY_SYSRQ", "PRINT_SCREEN"),
   ("KEY_SCROLLLOCK", "SCROLL_LOCK"),
   ("KEY_PAUSE", "PAUSE"),
   ("KEY_A", "A"),
   ("KEY_B", "B"),
   ("KEY_C", "C"),
   ("KEY_D", "D"),
   ("KEY_E", "E"),
   ("KEY_F", "F"),
   ("KEY_G", "G"),
   ("KEY_H", "H"),
   ("KEY_I", "I"),
   ("KEY_J", "J"),
   ("KEY_K", "K"),
   ("KEY_L", "L"),
   ("KEY_M", "M"),
   ("KEY_N", "N"),
   ("KEY_O", "O"),
   ("KEY_P", "P"),
   ("KEY_Q", "Q"),
   ("KEY_R", "R"),
   ("KEY_S", "S"),
   ("KEY_T", "T"),
   ("KEY_U", "U"),
   ("KEY_V", "V"),
   ("KEY_W", "W"),
   ("KEY_X", "X"),
   ("KEY_Y", "Y"),
   ("KEY_Z", "Z"),
   ("KEY_0", "0"),
   ("KEY_1", "1"),
   ("KEY_2", "2"),
   ("KEY_3", "3"),
   ("KEY_4", "4"),
   ("KEY_5", "5"),
   ("KEY_6", "6"),
   ("KEY_7", "7"),
   ("KEY_8", "8"),
   ("KEY_9", "9"),
   ("KEY_KP0", "NUM_0"),
   ("KEY_KP1", "NUM_1"),
   ("KEY_KP2", "NUM_2"),
   ("KEY_KP3", "NUM_3"),
   ("KEY_KP4", "NUM_4"),
   ("KEY_KP5", "NUM_5"),
   ("KEY_KP6", "NUM_6"),
   ("KEY_KP7", "NUM_7"),
   ("KEY_KP8", "NUM_8"),
   ("KEY_KP9", "NUM_9"),
   ("KEY_KPENTER", "NUM_ENTER"),
   ("KEY_KPPLUS", "NUM_PLUS"),
   ("KEY_KPMINUS", "NUM_MINUS"),
   ("KEY_KPASTERISK", "NUM_MULT"),
   ("KEY_KPSLASH", "NUM_DIV"),
   ("KEY_KPDOT", "NUM_DOT"),
   ("KEY_NUMLOCK", "NUM_LOCK"),
   ("KEY_MINUS", "MINUS"),
   ("KEY_EQUAL", "EQUAL"),
   ("KEY_LEFTBRACE", "LBRACKET"),
   ("KEY_RIGHTBRACE", "RBRACKET"),
   ("KEY_SEMICOLON", "SEMICOLON"),
   ("KEY_APOSTROPHE", "APOSTROPHE"),
   ("KEY_GRAVE", "GRAVE"),
   ("KEY_BACKSLASH", "BACKSLASH"),
   ("KEY_COMMA", "COMMA"),
   ("KEY_DOT", "DOT"),
   ("KEY_SLASH", "SLASH")]

/-- One step of the `SCHEMA_TO_EVDEV` reversal comprehension (`mapping.py`):
`{v: k for k, v in EVDEV_TO_SCHEMA.items()}`. -/
def schema_rev_insert (d : List (String × String)) (kv : String × String) :
    List (String × String) :=
  dictInsert d kv.2 kv.1

/-- One step of the identity loop (`mapping.py`): add `evdev_name` mapped to
itself when not already present. -/
def schema_ident_insert (d : List (String × String)) (kv : String × String) :
    List (String × String) :=
  if (dictFind? d kv.1).isSome then d else dictInsert d kv.1 kv.1

/-- `SCHEMA_TO_EVDEV` (`mapping.py`): reverse of `EVDEV_TO_SCHEMA`, then
identity entries for evdev names not already present as schema names. -/
def SCHEMA_TO_EVDEV_build : List (String × String) :=
  EVDEV_TO_SCHEMA.foldl schema_ident_insert (EVDEV_TO_SCHEMA.foldl schema_rev_insert [])

/-- The table `SCHEMA_TO_EVDEV_build` evaluates to (see `SCHEMA_TO_EVDEV_computes`). -/
def SCHEMA_TO_EVDEV : List (String × String) :=
  [("MOUSE_LEFT", "BTN_LEFT"),
   ("MOUSE_RIGHT", "BTN_RIGHT"),
   ("MOUSE_MIDDLE", "BTN_MIDDLE"),
   ("MOUSE_SIDE", "BTN_SIDE"),
   ("MOUSE_EXTRA", "BTN_EXTRA"),
   ("MOUSE_FORWARD", "BTN_FORWARD"),
   ("MOUSE_BACK", "BTN_BACK"),
   ("MOUSE_TASK", "BTN_TASK"),
   ("CTRL", "KEY_LEFTCTRL"),
   ("CTRL_R", "KEY_RIGHTCTRL"),
   ("SHIFT", "KEY_LEFTSHIFT"),
   ("SHIFT_R", "KEY_RIGHTSHIFT"),
   ("ALT", "KEY_LEFTALT"),
   ("ALT_R", "KEY_RIGHTALT"),
   ("META", "KEY_LEFTMETA"),
   ("META_R", "KEY_RIGHTMETA"),
   ("ESC", "KEY_ESC"),
   ("TAB", "KEY_TAB"),
   ("CAPS", "KEY_CAPSLOCK"),
   ("ENTER", "KEY_ENTER"),
   ("SPACE", "KEY_SPACE"),
   ("BACKSPACE", "KEY_BACKSPACE"),
   ("DELETE", "KEY_DELETE"),
   ("INSERT", "KEY_INSERT"),
   ("HOME", "KEY_HOME"),
   ("END", "KEY_END"),
   ("PAGEUP", "KEY_PAGEUP"),
   ("PAGEDOWN", "KEY_PAGEDOWN"),
   ("UP", "KEY_UP"),
   ("DOWN", "KEY_DOWN"),
   ("LEFT", "KEY_LEFT"),
   ("RIGHT", "KEY_RIGHT"),
   ("F1", "KEY_F1"),
   ("F2", "KEY_F2"),
   ("F3", "KEY_F3"),
   ("F4", "KEY_F4"),
   ("F5", "KEY_F5"),
   ("F6", "KEY_F6"),
   ("F7", "KEY_F7"),
   ("F8", "KEY_F8"),
   ("F9", "KEY_F9"),
   ("F10", "KEY_F10"),
   ("F11", "KEY_F11"),
   ("F12", "KEY_F12"),
   ("F13", "KEY_F13"),
   ("F14", "KEY_F14"),
   ("F15", "KEY_F15"),
   ("F16", "KEY_F16"),
   ("F17", "KEY_F17"),
   ("F18", "KEY_F18"),
   ("F19", "KEY_F19"),
   ("F20", "KEY_F20"),
   ("F21", "KEY_F21"),
   ("F22", "KEY_F22"),
   ("F23", "KEY_F23"),
   ("F24", "KEY_F24"),
   ("MUTE", "KEY_MUTE"),
   ("VOL_DOWN", "KEY_VOLUMEDOWN"),
   ("VOL_UP", "KEY_VOLUMEUP"),
   ("PLAY_PAUSE", "KEY_PLAYPAUSE"),
   ("STOP", "KEY_STOPCD"),
   ("PREV_TRACK", "KEY_PREVIOUSSONG"),
   ("NEXT_TRACK", "KEY_NEXTSONG"),
   ("PRINT_SCREEN", "KEY_SYSRQ"),
   ("SCROLL_LOCK", "KEY_SCROLLLOCK"),
   ("PAUSE", "KEY_PAUSE"),
   ("A", "KEY_A"),
   ("B", "KEY_B"),
   ("C", "KEY_C"),
   ("D", "KEY_D"),
   ("E", "KEY_E"),
   ("F", "KEY_F"),
   ("G", "KEY_G"),
   ("H", "KEY_H"),
   ("I", "KEY_I"),
   ("J", "KEY_J"),
   ("K", "KEY_K"),
   ("L", "KEY_L"),
   ("M", "KEY_M"),
   ("N", "KEY_N"),
   ("O", "KEY_O"),
   ("P", "KEY_P"),
   ("Q", "KEY_Q"),
   ("R", "KEY_R"),
   ("S", "KEY_S"),
   ("T", "KEY_T"),
   ("U", "KEY_U"),
   ("V", "KEY_V"),
   ("W", "KEY_W"),
   ("X", "KEY_X"),
   ("Y", "KEY_Y"),
   ("Z", "KEY_Z"),
   ("0", "KEY_0"),
   ("1", "KEY_1"),
   ("2", "KEY_2"),
   ("3", "KEY_3"),
   ("4", "KEY_4"),
   ("5", "KEY_5"),
   ("6", "KEY_6"),
   ("7", "KEY_7"),
   ("8", "KEY_8"),
   ("9", "KEY_9"),
   ("NUM_0", "KEY_KP0"),
   ("NUM_1", "KEY_KP1"),
   ("NUM_2", "KEY_KP2"),
   ("NUM_3", "KEY_KP3"),
   ("NUM_4", "KEY_KP4"),
   ("NUM_5", "KEY_KP5"),
   ("NUM_6", "KEY_KP6"),
   ("NUM_7", "KEY_KP7"),
   ("NUM_8", "KEY_KP8"),
   ("NUM_9", "KEY_KP9"),
   ("NUM_ENTER", "KEY_KPENTER"),
   ("NUM_PLUS", "KEY_KPPLUS"),
   ("NUM_MINUS", "KEY_KPMINUS"),
   ("NUM_MULT", "KEY_KPASTERISK"),
   ("NUM_DIV", "KEY_KPSLASH"),
   ("NUM_DOT", "KEY_KPDOT"),
   ("NUM_LOCK", "KEY_NUMLOCK"),
   ("MINUS", "KEY_MINUS"),
   ("EQUAL", "KEY_EQUAL"),
   ("LBRACKET", "KEY_LEFTBRACE"),
   ("RBRACKET", "KEY_RIGHTBRACE"),
   ("SEMICOLON", "KEY_SEMICOLON"),
   ("APOSTROPHE", "KEY_APOSTROPHE"),
   ("GRAVE", "KEY_GRAVE"),
   ("BACKSLASH", "KEY_BACKSLASH"),
   ("COMMA", "KEY_COMMA"),
   ("DOT", "KEY_DOT"),
   ("SLASH", "KEY_SLASH"),
   ("BTN_LEFT", "BTN_LEFT"),
   ("BTN_RIGHT", "BTN_RIGHT"),
   ("BTN_MIDDLE", "BTN_MIDDLE"),
   ("BTN_SIDE", "BTN_SIDE"),
   ("BTN_EXTRA", "BTN_EXTRA"),
   ("BTN_FORWARD", "BTN_FORWARD"),
   ("BTN_BACK", "BTN_BACK"),
   ("BTN_TASK", "BTN_TASK"),
   ("KEY_LEFTCTRL", "KEY_LEFTCTRL"),
   ("KEY_RIGHTCTRL", "KEY_RIGHTCTRL"),
   ("KEY_LEFTSHIFT", "KEY_LEFTSHIFT"),
   ("KEY_RIGHTSHIFT", "KEY_RIGHTSHIFT"),
   ("KEY_LEFTALT", "KEY_LEFTALT"),
   ("KEY_RIGHTALT", "KEY_RIGHTALT"),
   ("KEY_LEFTMETA", "KEY_LEFTMETA"),
   ("KEY_RIGHTMETA", "KEY_RIGHTMETA"),
   ("KEY_ESC", "KEY_ESC"),
   ("KEY_TAB", "KEY_TAB"),
   ("KEY_CAPSLOCK", "KEY_CAPSLOCK"),
   ("KEY_ENTER", "KEY_ENTER"),
   ("KEY_SPACE", "KEY_SPACE"),
   ("KEY_BACKSPACE", "KEY_BACKSPACE"),
   ("KEY_DELETE", "KEY_DELETE"),
   ("KEY_INSERT", "KEY_INSERT"),
   ("KEY_HOME", "KEY_HOME"),
   ("KEY_END", "KEY_END"),
   ("KEY_PAGEUP", "KEY_PAGEUP"),
   ("KEY_PAGEDOWN", "KEY_PAGEDOWN"),
   ("KEY_UP", "KEY_UP"),
   ("KEY_DOWN", "KEY_DOWN"),
   ("KEY_LEFT", "KEY_LEFT"),
   ("KEY_RIGHT", "KEY_RIGHT"),
   ("KEY_F1", "KEY_F1"),
   ("KEY_F2", "KEY_F2"),
   ("KEY_F3", "KEY_F3"),
   ("KEY_F4", "KEY_F4"),
   ("KEY_F5", "KEY_F5"),
   ("KEY_F6", "KEY_F6"),
   ("KEY_F7", "KEY_F7"),
   ("KEY_F8", "KEY_F8"),
   ("KEY_F9", "KEY_F9"),
   ("KEY_F10", "KEY_F10"),
   ("KEY_F11", "KEY_F11"),
   ("KEY_F12", "KEY_F12"),
   ("KEY_F13", "KEY_F13"),
   ("KEY_F14", "KEY_F14"),
   ("KEY_F15", "KEY_F15"),
   ("KEY_F16", "KEY_F16"),
   ("KEY_F17", "KEY_F17"),
   ("KEY_F18", "KEY_F18"),
   ("KEY_F19", "KEY_F19"),
   ("KEY_F20", "KEY_F20"),
   ("KEY_F21", "KEY_F21"),
   ("KEY_F22", "KEY_F22"),
   ("KEY_F23", "KEY_F23"),
   ("KEY_F24", "KEY_F24"),
   ("KEY_MUTE", "KEY_MUTE"),
   ("KEY_VOLUMEDOWN", "KEY_VOLUMEDOWN"),
   ("KEY_VOLUMEUP", "KEY_VOLUMEUP"),
   ("KEY_PLAYPAUSE", "KEY_PLAYPAUSE"),
   ("KEY_STOPCD", "KEY_STOPCD"),
   ("KEY_PREVIOUSSONG", "KEY_PREVIOUSSONG"),
   ("KEY_NEXTSONG", "KEY_NEXTSONG"),
   ("KEY_SYSRQ", "KEY_SYSRQ"),
   ("KEY_SCROLLLOCK", "KEY_SCROLLLOCK"),
   ("KEY_PAUSE", "KEY_PAUSE"),
   ("KEY_A", "KEY_A"),
   ("KEY_B", "KEY_B"),
   ("KEY_C", "KEY_C"),
   ("KEY_D", "KEY_D"),
   ("KEY_E", "KEY_E"),
   ("KEY_F", "KEY_F"),
   ("KEY_G", "KEY_G"),
   ("KEY_H", "KEY_H"),
   ("KEY_I", "KEY_I"),
   ("KEY_J", "KEY_J"),
   ("KEY_K", "KEY_K"),
   ("KEY_L", "KEY_L"),
   ("KEY_M", "KEY_M"),
   ("KEY_N", "KEY_N"),
   ("KEY_O", "KEY_O"),
   ("KEY_P", "KEY_P"),
   ("KEY_Q", "KEY_Q"),
   ("KEY_R", "KEY_R"),
   ("KEY_S", "KEY_S"),
   ("KEY_T", "KEY_T"),
   ("KEY_U", "KEY_U"),
   ("KEY_V", "KEY_V"),
   ("KEY_W", "KEY_W"),
   ("KEY_X", "KEY_X"),
   ("KEY_Y", "KEY_Y"),
   ("KEY_Z", "KEY_Z"),
   ("KEY_0", "KEY_0"),
   ("KEY_1", "KEY_1"),
   ("KEY_2", "KEY_2"),
   ("KEY_3", "KEY_3"),
   ("KEY_4", "KEY_4"),
   ("KEY_5", "KEY_5"),
   ("KEY_6", "KEY_6"),
   ("KEY_7", "KEY_7"),
   ("KEY_8", "KEY_8"),
   ("KEY_9", "KEY_9"),
   ("KEY_KP0", "KEY_KP0"),
   ("KEY_KP1", "KEY_KP1"),
   ("KEY_KP2", "KEY_KP2"),
   ("KEY_KP3", "KEY_KP3"),
   ("KEY_KP4", "KEY_KP4"),
   ("KEY_KP5", "KEY_KP5"),
   ("KEY_KP6", "KEY_KP6"),
   ("KEY_KP7", "KEY_KP7"),
   ("KEY_KP8", "KEY_KP8"),
   ("KEY_KP9", "KEY_KP9"),
   ("KEY_KPENTER", "KEY_KPENTER"),
   ("KEY_KPPLUS", "KEY_KPPLUS"),
   ("KEY_KPMINUS", "KEY_KPMINUS"),
   ("KEY_KPASTERISK", "KEY_KPASTERISK"),
   ("KEY_KPSLASH", "KEY_KPSLASH"),
   ("KEY_KPDOT", "KEY_KPDOT"),
   ("KEY_NUMLOCK", "KEY_NUMLOCK"),
   ("KEY_MINUS", "KEY_MINUS"),
   ("KEY_EQUAL", "KEY_EQUAL"),
   ("KEY_LEFTBRACE", "KEY_LEFTBRACE"),
   ("KEY_RIGHTBRACE", "KEY_RIGHTBRACE"),
   ("KEY_SEMICOLON", "KEY_SEMICOLON"),
   ("KEY_APOSTROPHE", "KEY_APOSTROPHE"),
   ("KEY_GRAVE", "KEY_GRAVE"),
   ("KEY_BACKSLASH", "KEY_BACKSLASH"),
   ("KEY_COMMA", "KEY_COMMA"),
   ("KEY_DOT", "KEY_DOT"),
   ("KEY_SLASH", "KEY_SLASH")]

/-- Model of the external `evdev.ecodes` attribute namespace, restricted to
the kernel key/button constants this repository's tables mention (values from
`linux/input-event-codes.h`); any other attribute name resolves to `none`,
matching `getattr(ecodes, name, None)` for names outside the table. -/
def ecodes_table : List (String × Nat) :=
  [("BTN_LEFT", 272), ("BTN_RIGHT", 273), ("BTN_MIDDLE", 274), ("BTN_SIDE", 275),
   ("BTN_EXTRA", 276), ("BTN_FORWARD", 277), ("BTN_BACK", 278), ("BTN_TASK", 279),
   ("KEY_LEFTCTRL", 29), ("KEY_RIGHTCTRL", 97), ("KEY_LEFTSHIFT", 42),
   ("KEY_RIGHTSHIFT", 54), ("KEY_LEFTALT", 56), ("KEY_RIGHTALT", 100),
   ("KEY_LEFTMETA", 125), ("KEY_RIGHTMETA", 126),
   ("KEY_ESC", 1), ("KEY_TAB", 15), ("KEY_CAPSLOCK", 58), ("KEY_ENTER", 28),
   ("KEY_SPACE", 57), ("KEY_BACKSPACE", 14), ("KEY_DELETE", 111),
   ("KEY_INSERT", 110), ("KEY_HOME", 102), ("KEY_END", 107),
   ("KEY_PAGEUP", 104), ("KEY_PAGEDOWN", 109),
   ("KEY_UP", 103), ("KEY_DOWN", 108), ("KEY_LEFT", 105), ("KEY_RIGHT", 106),
   ("KEY_F1", 59), ("KEY_F2", 60), ("KEY_F3", 61), ("KEY_F4", 62),
   ("KEY_F5", 63), ("KEY_F6", 64), ("KEY_F7", 65), ("KEY_F8", 66),
   ("KEY_F9", 67), ("KEY_F10", 68), ("KEY_F11", 87), ("KEY_F12", 88),
   ("KEY_F13", 183), ("KEY_F14", 184), ("KEY_F15", 185), ("KEY_F16", 186),
   ("KEY_F17", 187), ("KEY_F18", 188), ("KEY_F19", 189), ("KEY_F20", 190),
   ("KEY_F21", 191), ("KEY_F22", 192), ("KEY_F23", 193), ("KEY_F24", 194),
   ("KEY_MUTE", 113), ("KEY_VOLUMEDOWN", 114), ("KEY_VOLUMEUP", 115),
   ("KEY_PLAYPAUSE", 164), ("KEY_STOPCD", 166), ("KEY_PREVIOUSSONG", 165),
   ("KEY_NEXTSONG", 163), ("KEY_SYSRQ", 99), ("KEY_SCROLLLOCK", 70),
   ("KEY_PAUSE", 119),
   ("KEY_A", 30), ("KEY_B", 48), ("KEY_C", 46), ("KEY_D", 32), ("KEY_E", 18),
   ("KEY_F", 33), ("KEY_G", 34), ("KEY_H", 35), ("KEY_I", 23), ("KEY_J", 36),
   ("KEY_K", 37), ("KEY_L", 38), ("KEY_M", 50), ("KEY_N", 49), ("KEY_O", 24),
   ("KEY_P", 25), ("KEY_Q", 16), ("KEY_R", 19), ("KEY_S", 31), ("KEY_T", 20),
   ("KEY_U", 22), ("KEY_V", 47), ("KEY_W", 17), ("KEY_X", 45), ("KEY_Y", 21),
   ("KEY_Z", 44),
   ("KEY_0", 11), ("KEY_1", 2), ("KEY_2", 3), ("KEY_3", 4), ("KEY_4", 5),
   ("KEY_5", 6), ("KEY_6", 7), ("KEY_7", 8), ("KEY_8", 9), ("KEY_9", 10),
   ("KEY_KP0", 82), ("KEY_KP1", 79), ("KEY_KP2", 80), ("KEY_KP3", 81),
   ("KEY_KP4", 75), ("KEY_KP5", 76), ("KEY_KP6", 77), ("KEY_KP7", 71),
   ("KEY_KP8", 72), ("KEY_KP9", 73),
   ("KEY_KPENTER", 96), ("KEY_KPPLUS", 78), ("KEY_KPMINUS", 74),
   ("KEY_KPASTERISK", 55), ("KEY_KPSLASH", 98), ("KEY_KPDOT", 83),
   ("KEY_NUMLOCK", 69),
   ("KEY_MINUS", 12), ("KEY_EQUAL", 13), ("KEY_LEFTBRACE", 26),
   ("KEY_RIGHTBRACE", 27), ("KEY_SEMICOLON", 39), ("KEY_APOSTROPHE", 40),
   ("KEY_GRAVE", 41), ("KEY_BACKSLASH", 43), ("KEY_COMMA", 51),
   ("KEY_DOT", 52), ("KEY_SLASH", 53)]

/-- `getattr(ecodes, name, None)` on the modelled namespace. -/
def getattr_ecodes (name : String) : Option Nat :=
  dictFind? ecodes_table name

/-- One step of `_build_uinput_map` (`mapping.py`): when the evdev name is a
kernel constant, map both the schema name and the evdev name to its code. -/
def uinput_insert (d : List (String × Nat)) (kv : String × String) :
    List (String × Nat) :=
  match getattr_ecodes kv.1 with
  | some code => dictInsert (dictInsert d kv.2 code) kv.1 code
  | none => d

/-- `SCHEMA_TO_UINPUT` (`mapping.py`, `_build_uinput_map`): for each
`(evdev_name, schema_name)` item whose evdev name is a kernel constant, map
both the schema name and the evdev name to the numeric code. -/
def SCHEMA_TO_UINPUT_build : List (String × Nat) :=
  EVDEV_TO_SCHEMA.foldl uinput_insert []

/-- The table `SCHEMA_TO_UINPUT_build` evaluates to (see `SCHEMA_TO_UINPUT_computes`). -/
def SCHEMA_TO_UINPUT : List (String × Nat) :=
  [("MOUSE_LEFT", 272),
   ("BTN_LEFT", 272),
   ("MOUSE_RIGHT", 273),
   ("BTN_RIGHT", 273),
   ("MOUSE_MIDDLE", 274),
   ("BTN_MIDDLE", 274),
   ("MOUSE_SIDE", 275),
   ("BTN_SIDE", 275),
   ("MOUSE_EXTRA", 276),
   ("BTN_EXTRA", 276),
   ("MOUSE_FORWARD", 277),
   ("BTN_FORWARD", 277),
   ("MOUSE_BACK", 278),
   ("BTN_BACK", 278),
   ("MOUSE_TASK", 279),
   ("BTN_TASK", 279),
   ("CTRL", 29),
   ("KEY_LEFTCTRL", 29),
   ("CTRL_R", 97),
   ("KEY_RIGHTCTRL", 97),
   ("SHIFT", 42),
   ("KEY_LEFTSHIFT", 42),
   ("SHIFT_R", 54),
   ("KEY_RIGHTSHIFT", 54),
   ("ALT", 56),
   ("KEY_LEFTALT", 56),
   ("ALT_R", 100),
   ("KEY_RIGHTALT", 100),
   ("META", 125),
   ("KEY_LEFTMETA", 125),
   ("META_R", 126),
   ("KEY_RIGHTMETA", 126),
   ("ESC", 1),
   ("KEY_ESC", 1),
   ("TAB", 15),
   ("KEY_TAB", 15),
   ("CAPS", 58),
   ("KEY_CAPSLOCK", 58),
   ("ENTER", 28),
   ("KEY_ENTER", 28),
   ("SPACE", 57),
   ("KEY_SPACE", 57),
   ("BACKSPACE", 14),
   ("KEY_BACKSPACE", 14),
   ("DELETE", 111),
   ("KEY_DELETE", 111),
   ("INSERT", 110),
   ("KEY_INSERT", 110),
   ("HOME", 102),
   ("KEY_HOME", 102),
   ("END", 107),
   ("KEY_END", 107),
   ("PAGEUP", 104),
   ("KEY_PAGEUP", 104),
   ("PAGEDOWN", 109),
   ("KEY_PAGEDOWN", 109),
   ("UP", 103),
   ("KEY_UP", 103),
   ("DOWN", 108),
   ("KEY_DOWN", 108),
   ("LEFT", 105),
   ("KEY_LEFT", 105),
   ("RIGHT", 106),
   ("KEY_RIGHT", 106),
   ("F1", 59),
   ("KEY_F1", 59),
   ("F2", 60),
   ("KEY_F2", 60),
   ("F3", 61),
   ("KEY_F3", 61),
   ("F4", 62),
   ("KEY_F4", 62),
   ("F5", 63),
   ("KEY_F5", 63),
   ("F6", 64),
   ("KEY_F6", 64),
   ("F7", 65),
   ("KEY_F7", 65),
   ("F8", 66),
   ("KEY_F8", 66),
   ("F9", 67),
   ("KEY_F9", 67),
   ("F10", 68),
   ("KEY_F10", 68),
   ("F11", 87),
   ("KEY_F11", 87),
   ("F12", 88),
   ("KEY_F12", 88),
   ("F13", 183),
   ("KEY_F13", 183),
   ("F14", 184),
   ("KEY_F14", 184),
   ("F15", 185),
   ("KEY_F15", 185),
   ("F16", 186),
   ("KEY_F16", 186),
   ("F17", 187),
   ("KEY_F17", 187),
   ("F18", 188),
   ("KEY_F18", 188),
   ("F19", 189),
   ("KEY_F19", 189),
   ("F20", 190),
   ("KEY_F20", 190),
   ("F21", 191),
   ("KEY_F21", 191),
   ("F22", 192),
   ("KEY_F22", 192),
   ("F23", 193),
   ("KEY_F23", 193),
   ("F24", 194),
   ("KEY_F24", 194),
   ("MUTE", 113),
   ("KEY_MUTE", 113),
   ("VOL_DOWN", 114),
   ("KEY_VOLUMEDOWN", 114),
   ("VOL_UP", 115),
   ("KEY_VOLUMEUP", 115),
   ("PLAY_PAUSE", 164),
   ("KEY_PLAYPAUSE", 164),
   ("STOP", 166),
   ("KEY_STOPCD", 166),
   ("PREV_TRACK", 165),
   ("KEY_PREVIOUSSONG", 165),
   ("NEXT_TRACK", 163),
   ("KEY_NEXTSONG", 163),
   ("PRINT_SCREEN", 99),
   ("KEY_SYSRQ", 99),
   ("SCROLL_LOCK", 70),
   ("KEY_SCROLLLOCK", 70),
   ("PAUSE", 119),
   ("KEY_PAUSE", 119),
   ("A", 30),
   ("KEY_A", 30),
   ("B", 48),
   ("KEY_B", 48),
   ("C", 46),
   ("KEY_C", 46),
   ("D", 32),
   ("KEY_D", 32),
   ("E", 18),
   ("KEY_E", 18),
   ("F", 33),
   ("KEY_F", 33),
   ("G", 34),
   ("KEY_G", 34),
   ("H", 35),
   ("KEY_H", 35),
   ("I", 23),
   ("KEY_I", 23),
   ("J", 36),
   ("KEY_J", 36),
   ("K", 37),
   ("KEY_K", 37),
   ("L", 38),
   ("KEY_L", 38),
   ("M", 50),
   ("KEY_M", 50),
   ("N", 49),
   ("KEY_N", 49),
   ("O", 24),
   ("KEY_O", 24),
   ("P", 25),
   ("KEY_P", 25),
   ("Q", 16),
   ("KEY_Q", 16),
   ("R", 19),
   ("KEY_R", 19),
   ("S", 31),
   ("KEY_S", 31),
   ("T", 20),
   ("KEY_T", 20),
   ("U", 22),
   ("KEY_U", 22),
   ("V", 47),
   ("KEY_V", 47),
   ("W", 17),
   ("KEY_W", 17),
   ("X", 45),
   ("KEY_X", 45),
   ("Y", 21),
   ("KEY_Y", 21),
   ("Z", 44),
   ("KEY_Z", 44),
   ("0", 11),
   ("KEY_0", 11),
   ("1", 2),
   ("KEY_1", 2),
   ("2", 3),
   ("KEY_2", 3),
   ("3", 4),
   ("KEY_3", 4),
   ("4", 5),
   ("KEY_4", 5),
   ("5", 6),
   ("KEY_5", 6),
   ("6", 7),
   ("KEY_6", 7),
   ("7", 8),
   ("KEY_7", 8),
   ("8", 9),
   ("KEY_8", 9),
   ("9", 10),
   ("KEY_9", 10),
   ("NUM_0", 82),
   ("KEY_KP0", 82),
   ("NUM_1", 79),
   ("KEY_KP1", 79),
   ("NUM_2", 80),
   ("KEY_KP2", 80),
   ("NUM_3", 81),
   ("KEY_KP3", 81),
   ("NUM_4", 75),
   ("KEY_KP4", 75),
   ("NUM_5", 76),
   ("KEY_KP5", 76),
   ("NUM_6", 77),
   ("KEY_KP6", 77),
   ("NUM_7", 71),
   ("KEY_KP7", 71),
   ("NUM_8", 72),
   ("KEY_KP8", 72),
   ("NUM_9", 73),
   ("KEY_KP9", 73),
   ("NUM_ENTER", 96),
   ("KEY_KPENTER", 96),
   ("NUM_PLUS", 78),
   ("KEY_KPPLUS", 78),
   ("NUM_MINUS", 74),
   ("KEY_KPMINUS", 74),
   ("NUM_MULT", 55),
   ("KEY_KPASTERISK", 55),
   ("NUM_DIV", 98),
   ("KEY_KPSLASH", 98),
   ("NUM_DOT", 83),
   ("KEY_KPDOT", 83),
   ("NUM_LOCK", 69),
   ("KEY_NUMLOCK", 69),
   ("MINUS", 12),
   ("KEY_MINUS", 12),
   ("EQUAL", 13),
   ("KEY_EQUAL", 13),
   ("LBRACKET", 26),
   ("KEY_LEFTBRACE", 26),
   ("RBRACKET", 27),
   ("KEY_RIGHTBRACE", 27),
   ("SEMICOLON", 39),
   ("KEY_SEMICOLON", 39),
   ("APOSTROPHE", 40),
   ("KEY_APOSTROPHE", 40),
   ("GRAVE", 41),
   ("KEY_GRAVE", 41),
   ("BACKSLASH", 43),
   ("KEY_BACKSLASH", 43),
   ("COMMA", 51),
   ("KEY_COMMA", 51),
   ("DOT", 52),
   ("KEY_DOT", 52),
   ("SLASH", 53),
   ("KEY_SLASH", 53)]

/-- `schema_to_evdev_code` (`mapping.py`): schema table first, then the evdev
name directly, then with `KEY_` and `BTN_` prefixes. -/
def schema_to_evdev_code (schema_name : String) : Option Nat :=
  match dictFind? SCHEMA_TO_UINPUT schema_name with
  | some c => some c
  | none =>
    let evdev_name := (dictFind? SCHEMA_TO_EVDEV schema_name).getD schema_name
    match getattr_ecodes evdev_name with
    | some c => some c
    | none =>
      match getattr_ecodes ("KEY_" ++ schema_name) with
      | some c => some c
      | none => getattr_ecodes ("BTN_" ++ schema_name)

/-!
## Remap engine — `src/services/remap_daemon/engine.py`

The engine class is embedded as a record of its lookup tables plus the mutable
`KeyState`; each method becomes a function returning the new engine together
with the list of `(code, value)` key writes it sends to the uinput sink.
Python truthiness tests on optional codes (`if code:`) and optional strings
are modelled explicitly.
-/

/-- `KeyState` (`engine.py`): `pressed` is a Python `set[int]`, modelled as a
duplicate-free list in insertion order. -/
structure KeyState where
  pressed : List Nat := []
  active_layer : String := "base"
deriving DecidableEq, Repr

/-- `set.add`: no-op when the element is present. -/
def setAdd (s : List Nat) (c : Nat) : List Nat :=
  if c ∈ s then s else s ++ [c]

/-- `set.discard`: remove the element when present. -/
def setDiscard (s : List Nat) (c : Nat) : List Nat :=
  s.filter (fun x => x ≠ c)

/-- One key write `(code, value)` to the uinput sink. -/
abbrev Emission := Nat × Nat

/-- `RemapEngine` (`engine.py`): the profile, the key state, and the three
lookup tables `_bindings`, `_macros` and `_layer_modifiers`. -/
structure RemapEngine where
  profile : Profile
  state : KeyState
  bindings : List (String × List (Nat × Binding))
  macros : List (String × MacroAction)
  layer_modifiers : List (Nat × String)
deriving DecidableEq, Repr

/-- The macro index built by `_build_lookup_tables`: `self._macros[macro.id] = macro`. -/
def buildMacroTable (macros : List MacroAction) : List (String × MacroAction) :=
  macros.foldl (fun d m => dictInsert d m.id m) []

/-- The per-layer binding index built by `_build_lookup_tables`: bindings whose
`input_code` does not resolve (`code is not None` check) are skipped. -/
def buildLayerBindings (bindings : List Binding) : List (Nat × Binding) :=
  bindings.foldl
    (fun d b =>
      match schema_to_evdev_code b.input_code with
      | some code => dictInsert d code b
      | none => d) []

/-- `self._bindings[layer.id] = layer_bindings` over all layers. -/
def buildBindingTable (layers : List Layer) : List (String × List (Nat × Binding)) :=
  layers.foldl (fun d layer => dictInsert d layer.id (buildLayerBindings layer.bindings)) []

/-- `self._layer_modifiers[mod_code] = layer.id` for every layer whose
`hold_modifier_input_code` is truthy (non-`None`, non-empty) and resolves. -/
def buildLayerModifiers (layers : List Layer) : List (Nat × String) :=
  layers.foldl
    (fun d layer =>
      match layer.hold_modifier_input_code with
      | some s =>
        if s = "" then d
        else
          match schema_to_evdev_code s with
          | some code => dictInsert d code layer.id
          | none => d
      | none => d) []

/-- `RemapEngine.__init__`: initial `KeyState` and freshly built tables. -/
def RemapEngine.new (p : Profile) : RemapEngine :=
  { profile := p
    state := {}
    bindings := buildBindingTable p.layers
    macros := buildMacroTable p.macros
    layer_modifiers := buildLayerModifiers p.layers }

/-- `_get_binding` (`engine.py`): active layer first, then the base layer. -/
def get_binding (eng : RemapEngine) (code : Nat) : Option Binding :=
  let fromActive :=
    match dictFind? eng.bindings eng.state.active_layer with
    | some layer_bindings => dictFind? layer_bindings code
    | none => none
  match fromActive with
  | some b => some b
  | none =>
    match dictFind? eng.bindings "base" with
    | some base_bindings => dictFind? base_bindings code
    | none => none

/-- `code = schema_to_evdev_code(k); if code: self._emit_key(code, v)` —
the truthiness test drops both `None` and the (never occurring) code `0`. -/
def emitIfTruthy (k : String) (v : Nat) : List Emission :=
  match schema_to_evdev_code k with
  | some c => if c = 0 then [] else [(c, v)]
  | none => []

/-- The `char_to_key` table inside `_type_text`. -/
def char_to_key (c : Char) : Option String :=
  if c = ' ' then some "SPACE"
  else if c = '\n' then some "ENTER"
  else if c = '\t' then some "TAB"
  else none

/-- One loop iteration of `_type_text`: alphabetic characters are uppercased
(shift-wrapped when originally uppercase), digits map to themselves, the three
whitespace characters map through `char_to_key`, anything else is skipped.
(Python's `str.isalpha` is Unicode-aware; for characters outside ASCII it can
hold, but their uppercased form never resolves to a code, so they emit nothing
there exactly as the skipped characters do here.) -/
def type_text_char (c : Char) : List Emission :=
  let keyInfo : Option (String × Bool) :=
    if c.isAlpha then some (c.toUpper.toString, c.isUpper)
    else if c.isDigit then some (c.toString, false)
    else
      match char_to_key c with
      | some k => some (k, false)
      | none => none
  match keyInfo with
  | none => []
  | some (key, needs_shift) =>
    match schema_to_evdev_code key with
    | none => []
    | some code =>
      if code = 0 then []
      else
        (if needs_shift then emitIfTruthy "SHIFT" 1 else [])
          ++ [(code, 1), (code, 0)]
          ++ (if needs_shift then emitIfTruthy "SHIFT" 0 else [])

/-- `_type_text` (`engine.py`); sleeps have no observable effect on the sink. -/
def type_text (text : String) : List Emission :=
  text.data.foldl (fun acc c => acc ++ type_text_char c) []

/-- `_execute_macro_step` (`engine.py`): `if step.key:` / `if step.text:` are
Python truthiness tests (non-`None` and non-empty). -/
def execute_macro_step (step : MacroStep) : List Emission :=
  match step.type with
  | MacroStepType.KEY_DOWN =>
    match step.key with
    | some k => if k = "" then [] else emitIfTruthy k 1
    | none => []
  | MacroStepType.KEY_UP =>
    match step.key with
    | some k => if k = "" then [] else emitIfTruthy k 0
    | none => []
  | MacroStepType.KEY_PRESS =>
    match step.key with
    | some k => if k = "" then [] else emitIfTruthy k 1 ++ emitIfTruthy k 0
    | none => []
  | MacroStepType.DELAY => []
  | MacroStepType.TEXT =>
    match step.text with
    | some t => if t = "" then [] else type_text t
    | none => []

/-- `_execute_macro` (`engine.py`): `repeat_count` rounds of the steps; the
inter-round sleep emits nothing. -/
def execute_macro_action (m : MacroAction) : List Emission :=
  (List.replicate m.repeat_count
    (m.steps.foldl (fun acc s => acc ++ execute_macro_step s) [])).flatten

/-- `_handle_binding_down` (`engine.py`). -/
def handle_binding_down (eng : RemapEngine) (binding : Binding) : List Emission :=
  match binding.action_type with
  | ActionType.PASSTHROUGH => emitIfTruthy binding.input_code 1
  | ActionType.KEY =>
    match binding.output_keys with
    | [] => []
    | k :: _ => emitIfTruthy k 1
  | ActionType.CHORD =>
    binding.output_keys.foldl (fun acc k => acc ++ emitIfTruthy k 1) []
  | ActionType.MACRO =>
    match binding.macro_id with
    | some mid =>
      if mid = "" then []
      else
        match dictFind? eng.macros mid with
        | some m => execute_macro_action m
        | none => []
    | none => []
  | ActionType.DISABLED => []

/-- `_handle_binding_up` (`engine.py`): chords release in reverse order;
macros and disabled bindings need no key-up handling. -/
def handle_binding_up (binding : Binding) : List Emission :=
  match binding.action_type with
  | ActionType.PASSTHROUGH => emitIfTruthy binding.input_code 0
  | ActionType.KEY =>
    match binding.output_keys with
    | [] => []
    | k :: _ => emitIfTruthy k 0
  | ActionType.CHORD =>
    binding.output_keys.reverse.foldl (fun acc k => acc ++ emitIfTruthy k 0) []
  | ActionType.MACRO => []
  | ActionType.DISABLED => []

/-- evdev event type constant `EV_KEY`. -/
def EV_KEY : Nat := 1

/-- An evdev input event as `process_event` reads it: `type`, `code`, `value`. -/
structure InputEvent where
  type : Nat
  code : Nat
  value : Nat
deriving DecidableEq, Repr

/-- The result of one `process_event` call: the engine after the call, the key
writes sent to the sink during the call, and the returned `handled` flag. -/
structure StepResult where
  engine : RemapEngine
  emissions : List Emission
  handled : Bool
deriving DecidableEq, Repr

/-- `process_event` (`engine.py`). -/
def process_event (eng : RemapEngine) (event : InputEvent) : StepResult :=
  if event.type ≠ EV_KEY then ⟨eng, [], false⟩
  else
    let code := event.code
    let value := event.value
    match dictFind? eng.layer_modifiers code with
    | some layer_id =>
      if value = 1 then
        ⟨{ eng with state := { eng.state with active_layer := layer_id } }, [], true⟩
      else if value = 0 then
        ⟨{ eng with state := { eng.state with active_layer := "base" } }, [], true⟩
      else ⟨eng, [], true⟩
    | none =>
      match get_binding eng code with
      | none => ⟨eng, [], false⟩
      | some binding =>
        if value = 1 then
          let eng' := { eng with state :=
            { eng.state with pressed := setAdd eng.state.pressed code } }
          ⟨eng', handle_binding_down eng' binding, true⟩
        else if value = 0 then
          let eng' := { eng with state :=
            { eng.state with pressed := setDiscard eng.state.pressed code } }
          ⟨eng', handle_binding_up binding, true⟩
        else if value = 2 then ⟨eng, [], true⟩
        else ⟨eng, [], false⟩

/-- `reload_profile` (`engine.py`): emit an up for every physically pressed
input code, then swap the profile, reset the state and rebuild the tables. -/
def reload_profile (eng : RemapEngine) (p : Profile) : RemapEngine × List Emission :=
  let emissions := eng.state.pressed.map (fun code => (code, 0))
  ({ profile := p
     state := {}
     bindings := buildBindingTable p.layers
     macros := buildMacroTable p.macros
     layer_modifiers := buildLayerModifiers p.layers }, emissions)

/-- The result of a run over an event sequence: final engine, the concatenated
sink writes, and the list of `process_event` return values. -/
structure RunResult where
  engine : RemapEngine
  emissions : List Emission
  handled : List Bool
deriving DecidableEq, Repr

/-- Fold `process_event` over an event sequence. -/
def runEvents (eng : RemapEngine) (events : List InputEvent) : RunResult :=
  events.foldl
    (fun r ev =>
      let s := process_event r.engine ev
      ⟨s.engine, r.emissions ++ s.emissions, r.handled ++ [s.handled]⟩)
    ⟨eng, [], []⟩

/-- Resolve a list of schema names: `some` exactly when every name resolves,
collecting the numeric codes in order. -/
def resolveAll : List String → Option (List Nat)
  | [] => some []
  | k :: ks =>
    match schema_to_evdev_code k, resolveAll ks with
    | some c, some cs => some (c :: cs)
    | _, _ => none

/-!
## Macro recorder

Modelled from the spec: the recorder module `services/macro_engine/recorder.py`
is absent from `src/` (only `src/tests/test_macro_recorder.py` is present);
the definitions below follow §4.4 of the spec, and the fixtures in the test
file agree with them.  Timestamps are seconds, modelled as exact rationals.
-/

/-- Modelled from the spec: recorder configuration (§4.4) with its defaults. -/
structure RecorderConfig where
  min_delay_ms : Nat := 10
  max_delay_ms : Nat := 5000
  record_delays : Bool := true
  merge_press_release : Bool := true
deriving DecidableEq, Repr

/-- Modelled from the spec: a buffered `RecordedEvent` (§4.4): timestamp in
seconds, numeric code, value ∈ {0, 1}, schema key name. -/
structure RecordedEvent where
  timestamp : Rat
  code : Nat
  value : Nat
  key_name : String
deriving DecidableEq, Repr

/-- Modelled from the spec: delay quantization (§4.4 step 3).  Before any step
but the first, Δ = time since the previously emitted step in ms; when
`record_delays` holds and Δ ≥ `min_delay_ms`, a `DELAY(min(Δ, max_delay_ms))`
step is emitted. -/
def delay_steps (cfg : RecorderConfig) (prev : Option Rat) (t : Rat) : List MacroStep :=
  match prev with
  | none => []
  | some tp =>
    let delta_ms : Rat := (t - tp) * 1000
    if cfg.record_delays then
      if (cfg.min_delay_ms : Rat) ≤ delta_ms then
        [{ type := MacroStepType.DELAY,
           delay_ms := some (min delta_ms (cfg.max_delay_ms : Rat)).floor.toNat }]
      else []
    else []

/-- Modelled from the spec: merge eligibility of a down event (§4.4 step 1):
merging is on, and the immediately next buffered event is an up of the same
code no more than 100 ms later. -/
def mergeable (cfg : RecorderConfig) (e : RecordedEvent)
    (rest : List RecordedEvent) : Bool :=
  cfg.merge_press_release &&
    match rest with
    | e2 :: _ =>
      e2.code == e.code && e2.value == 0 &&
        decide ((e2.timestamp - e.timestamp) * 1000 ≤ 100)
    | [] => false

/-- The KEY_DOWN / KEY_UP step matching a buffered event's value (§4.4 step 2). -/
def step_for (e : RecordedEvent) : MacroStep :=
  { type := if e.value = 1 then MacroStepType.KEY_DOWN else MacroStepType.KEY_UP
    key := some e.key_name }

/-- Modelled from the spec: the left-to-right compilation walk (§4.4),
threading the timestamp of the previously emitted step; a merged pair
advances past both events, leaving the up event's timestamp as the previous
one (the spec's S6 scenario fixes this: `DELAY(450)` between `up(A)@1.05` and
`down(B)@1.5`). -/
def compile_events (cfg : RecorderConfig) :
    Option Rat → List RecordedEvent → List MacroStep
  | _, [] => []
  | prev, [e] => delay_steps cfg prev e.timestamp ++ [step_for e]
  | prev, e :: e2 :: rest =>
    if e.value == 1 && mergeable cfg e (e2 :: rest) then
      delay_steps cfg prev e.timestamp
        ++ [{ type := MacroStepType.KEY_PRESS, key := some e.key_name }]
        ++ compile_events cfg (some e2.timestamp) rest
    else
      delay_steps cfg prev e.timestamp ++ [step_for e]
        ++ compile_events cfg (some e.timestamp) (e2 :: rest)

/-- Modelled from the spec: `stop()` compiles the buffer into the resulting
`MacroAction` (§4.4). -/
def build_macro_action (cfg : RecorderConfig)
    (events : List RecordedEvent) : MacroAction :=
  { id := "recorded_macro"
    name := "Recorded Macro"
    steps := compile_events cfg none events
    repeat_count := 1
    repeat_delay_ms := 0 }


/-!
### Fold intermediates

Intermediate values of the three table-building folds after 26, 52, 78 and
104 of the 130 items of `EVDEV_TO_SCHEMA`, written out so that each step of
the `..._computes` verification below is a small evaluation.
-/

/-- Intermediate fold value (see the `..._computes` theorems). -/
def SCHEMA_TO_UINPUT_26 : List (String × Nat) :=
  [("MOUSE_LEFT", 272),
   ("BTN_LEFT", 272),
   ("MOUSE_RIGHT", 273),
   ("BTN_RIGHT", 273),
   ("MOUSE_MIDDLE", 274),
   ("BTN_MIDDLE", 274),
   ("MOUSE_SIDE", 275),
   ("BTN_SIDE", 275),
   ("MOUSE_EXTRA", 276),
   ("BTN_EXTRA", 276),
   ("MOUSE_FORWARD", 277),
   ("BTN_FORWARD", 277),
   ("MOUSE_BACK", 278),
   ("BTN_BACK", 278),
   ("MOUSE_TASK", 279),
   ("BTN_TASK", 279),
   ("CTRL", 29),
   ("KEY_LEFTCTRL", 29),
   ("CTRL_R", 97),
   ("KEY_RIGHTCTRL", 97),
   ("SHIFT", 42),
   ("KEY_LEFTSHIFT", 42),
   ("SHIFT_R", 54),
   ("KEY_RIGHTSHIFT", 54),
   ("ALT", 56),
   ("KEY_LEFTALT", 56),
   ("ALT_R", 100),
   ("KEY_RIGHTALT", 100),
   ("META", 125),
   ("KEY_LEFTMETA", 125),
   ("META_R", 126),
   ("KEY_RIGHTMETA", 126),
   ("ESC", 1),
   ("KEY_ESC", 1),
   ("TAB", 15),
   ("KEY_TAB", 15),
   ("CAPS", 58),
   ("KEY_CAPSLOCK", 58),
   ("ENTER", 28),
   ("KEY_ENTER", 28),
   ("SPACE", 57),
   ("KEY_SPACE", 57),
   ("BACKSPACE", 14),
   ("KEY_BACKSPACE", 14),
   ("DELETE", 111),
   ("KEY_DELETE", 111),
   ("INSERT", 110),
   ("KEY_INSERT", 110),
   ("HOME", 102),
   ("KEY_HOME", 102),
   ("END", 107),
   ("KEY_END", 107)]

/-- Intermediate fold value (see the `..._computes` theorems). -/
def SCHEMA_TO_UINPUT_52 : List (String × Nat) :=
  [("MOUSE_LEFT", 272),
   ("BTN_LEFT", 272),
   ("MOUSE_RIGHT", 273),
   ("BTN_RIGHT", 273),
   ("MOUSE_MIDDLE", 274),
   ("BTN_MIDDLE", 274),
   ("MOUSE_SIDE", 275),
   ("BTN_SIDE", 275),
   ("MOUSE_EXTRA", 276),
   ("BTN_EXTRA", 276),
   ("MOUSE_FORWARD", 277),
   ("BTN_FORWARD", 277),
   ("MOUSE_BACK", 278),
   ("BTN_BACK", 278),
   ("MOUSE_TASK", 279),
   ("BTN_TASK", 279),
   ("CTRL", 29),
   ("KEY_LEFTCTRL", 29),
   ("CTRL_R", 97),
   ("KEY_RIGHTCTRL", 97),
   ("SHIFT", 42),
   ("KEY_LEFTSHIFT", 42),
   ("SHIFT_R", 54),
   ("KEY_RIGHTSHIFT", 54),
   ("ALT", 56),
   ("KEY_LEFTALT", 56),
   ("ALT_R", 100),
   ("KEY_RIGHTALT", 100),
   ("META", 125),
   ("KEY_LEFTMETA", 125),
   ("META_R", 126),
   ("KEY_RIGHTMETA", 126),
   ("ESC", 1),
   ("KEY_ESC", 1),
   ("TAB", 15),
   ("KEY_TAB", 15),
   ("CAPS", 58),
   ("KEY_CAPSLOCK", 58),
   ("ENTER", 28),
   ("KEY_ENTER", 28),
   ("SPACE", 57),
   ("KEY_SPACE", 57),
   ("BACKSPACE", 14),
   ("KEY_BACKSPACE", 14),
   ("DELETE", 111),
   ("KEY_DELETE", 111),
   ("INSERT", 110),
   ("KEY_INSERT", 110),
   ("HOME", 102),
   ("KEY_HOME", 102),
   ("END", 107),
   ("KEY_END", 107),
   ("PAGEUP", 104),
   ("KEY_PAGEUP", 104),
   ("PAGEDOWN", 109),
   ("KEY_PAGEDOWN", 109),
   ("UP", 103),
   ("KEY_UP", 103),
   ("DOWN", 108),
   ("KEY_DOWN", 108),
   ("LEFT", 105),
   ("KEY_LEFT", 105),
   ("RIGHT", 106),
   ("KEY_RIGHT", 106),
   ("F1", 59),
   ("KEY_F1", 59),
   ("F2", 60),
   ("KEY_F2", 60),
   ("F3", 61),
   ("KEY_F3", 61),
   ("F4", 62),
   ("KEY_F4", 62),
   ("F5", 63),
   ("KEY_F5", 63),
   ("F6", 64),
   ("KEY_F6", 64),
   ("F7", 65),
   ("KEY_F7", 65),
   ("F8", 66),
   ("KEY_F8", 66),
   ("F9", 67),
   ("KEY_F9", 67),
   ("F10", 68),
   ("KEY_F10", 68),
   ("F11", 87),
   ("KEY_F11", 87),
   ("F12", 88),
   ("KEY_F12", 88),
   ("F13", 183),
   ("KEY_F13", 183),
   ("F14", 184),
   ("KEY_F14", 184),
   ("F15", 185),
   ("KEY_F15", 185),
   ("F16", 186),
   ("KEY_F16", 186),
   ("F17", 187),
   ("KEY_F17", 187),
   ("F18", 188),
   ("KEY_F18", 188),
   ("F19", 189),
   ("KEY_F19", 189),
   ("F20", 190),
   ("KEY_F20", 190)]

/-- Intermediate fold value (see the `..._computes` theorems). -/
def SCHEMA_TO_UINPUT_78 : List (String × Nat) :=
  [("MOUSE_LEFT", 272),
   ("BTN_LEFT", 272),
   ("MOUSE_RIGHT", 273),
   ("BTN_RIGHT", 273),
   ("MOUSE_MIDDLE", 274),
   ("BTN_MIDDLE", 274),
   ("MOUSE_SIDE", 275),
   ("BTN_SIDE", 275),
   ("MOUSE_EXTRA", 276),
   ("BTN_EXTRA", 276),
   ("MOUSE_FORWARD", 277),
   ("BTN_FORWARD", 277),
   ("MOUSE_BACK", 278),
   ("BTN_BACK", 278),
   ("MOUSE_TASK", 279),
   ("BTN_TASK", 279),
   ("CTRL", 29),
   ("KEY_LEFTCTRL", 29),
   ("CTRL_R", 97),
   ("KEY_RIGHTCTRL", 97),
   ("SHIFT", 42),
   ("KEY_LEFTSHIFT", 42),
   ("SHIFT_R", 54),
   ("KEY_RIGHTSHIFT", 54),
   ("ALT", 56),
   ("KEY_LEFTALT", 56),
   ("ALT_R", 100),
   ("KEY_RIGHTALT", 100),
   ("META", 125),
   ("KEY_LEFTMETA", 125),
   ("META_R", 126),
   ("KEY_RIGHTMETA", 126),
   ("ESC", 1),
   ("KEY_ESC", 1),
   ("TAB", 15),
   ("KEY_TAB", 15),
   ("CAPS", 58),
   ("KEY_CAPSLOCK", 58),
   ("ENTER", 28),
   ("KEY_ENTER", 28),
   ("SPACE", 57),
   ("KEY_SPACE", 57),
   ("BACKSPACE", 14),
   ("KEY_BACKSPACE", 14),
   ("DELETE", 111),
   ("KEY_DELETE", 111),
   ("INSERT", 110),
   ("KEY_INSERT", 110),
   ("HOME", 102),
   ("KEY_HOME", 102),
   ("END", 107),
   ("KEY_END", 107),
   ("PAGEUP", 104),
   ("KEY_PAGEUP", 104),
   ("PAGEDOWN", 109),
   ("KEY_PAGEDOWN", 109),
   ("UP", 103),
   ("KEY_UP", 103),
   ("DOWN", 108),
   ("KEY_DOWN", 108),
   ("LEFT", 105),
   ("KEY_LEFT", 105),
   ("RIGHT", 106),
   ("KEY_RIGHT", 106),
   ("F1", 59),
   ("KEY_F1", 59),
   ("F2", 60),
   ("KEY_F2", 60),
   ("F3", 61),
   ("KEY_F3", 61),
   ("F4", 62),
   ("KEY_F4", 62),
   ("F5", 63),
   ("KEY_F5", 63),
   ("F6", 64),
   ("KEY_F6", 64),
   ("F7", 65),
   ("KEY_F7", 65),
   ("F8", 66),
   ("KEY_F8", 66),
   ("F9", 67),
   ("KEY_F9", 67),
   ("F10", 68),
   ("KEY_F10", 68),
   ("F11", 87),
   ("KEY_F11", 87),
   ("F12", 88),
   ("KEY_F12", 88),
   ("F13", 183),
   ("KEY_F13", 183),
   ("F14", 184),
   ("KEY_F14", 184),
   ("F15", 185),
   ("KEY_F15", 185),
   ("F16", 186),
   ("KEY_F16", 186),
   ("F17", 187),
   ("KEY_F17", 187),
   ("F18", 188),
   ("KEY_F18", 188),
   ("F19", 189),
   ("KEY_F19", 189),
   ("F20", 190),
   ("KEY_F20", 190),
   ("F21", 191),
   ("KEY_F21", 191),
   ("F22", 192),
   ("KEY_F22", 192),
   ("F23", 193),
   ("KEY_F23", 193),
   ("F24", 194),
   ("KEY_F24", 194),
   ("MUTE", 113),
   ("KEY_MUTE", 113),
   ("VOL_DOWN", 114),
   ("KEY_VOLUMEDOWN", 114),
   ("VOL_UP", 115),
   ("KEY_VOLUMEUP", 115),
   ("PLAY_PAUSE", 164),
   ("KEY_PLAYPAUSE", 164),
   ("STOP", 166),
   ("KEY_STOPCD", 166),
   ("PREV_TRACK", 165),
   ("KEY_PREVIOUSSONG", 165),
   ("NEXT_TRACK", 163),
   ("KEY_NEXTSONG", 163),
   ("PRINT_SCREEN", 99),
   ("KEY_SYSRQ", 99),
   ("SCROLL_LOCK", 70),
   ("KEY_SCROLLLOCK", 70),
   ("PAUSE", 119),
   ("KEY_PAUSE", 119),
   ("A", 30),
   ("KEY_A", 30),
   ("B", 48),
   ("KEY_B", 48),
   ("C", 46),
   ("KEY_C", 46),
   ("D", 32),
   ("KEY_D", 32),
   ("E", 18),
   ("KEY_E", 18),
   ("F", 33),
   ("KEY_F", 33),
   ("G", 34),
   ("KEY_G", 34),
   ("H", 35),
   ("KEY_H", 35),
   ("I", 23),
   ("KEY_I", 23),
   ("J", 36),
   ("KEY_J", 36),
   ("K", 37),
   ("KEY_K", 37),
   ("L", 38),
   ("KEY_L", 38)]

/-- Intermediate fold value (see the `..._computes` theorems). -/
def SCHEMA_TO_UINPUT_104 : List (String × Nat) :=
  [("MOUSE_LEFT", 272),
   ("BTN_LEFT", 272),
   ("MOUSE_RIGHT", 273),
   ("BTN_RIGHT", 273),
   ("MOUSE_MIDDLE", 274),
   ("BTN_MIDDLE", 274),
   ("MOUSE_SIDE", 275),
   ("BTN_SIDE", 275),
   ("MOUSE_EXTRA", 276),
   ("BTN_EXTRA", 276),
   ("MOUSE_FORWARD", 277),
   ("BTN_FORWARD", 277),
   ("MOUSE_BACK", 278),
   ("BTN_BACK", 278),
   ("MOUSE_TASK", 279),
   ("BTN_TASK", 279),
   ("CTRL", 29),
   ("KEY_LEFTCTRL", 29),
   ("CTRL_R", 97),
   ("KEY_RIGHTCTRL", 97),
   ("SHIFT", 42),
   ("KEY_LEFTSHIFT", 42),
   ("SHIFT_R", 54),
   ("KEY_RIGHTSHIFT", 54),
   ("ALT", 56),
   ("KEY_LEFTALT", 56),
   ("ALT_R", 100),
   ("KEY_RIGHTALT", 100),
   ("META", 125),
   ("KEY_LEFTMETA", 125),
   ("META_R", 126),
   ("KEY_RIGHTMETA", 126),
   ("ESC", 1),
   ("KEY_ESC", 1),
   ("TAB", 15),
   ("KEY_TAB", 15),
   ("CAPS", 58),
   ("KEY_CAPSLOCK", 58),
   ("ENTER", 28),
   ("KEY_ENTER", 28),
   ("SPACE", 57),
   ("KEY_SPACE", 57),
   ("BACKSPACE", 14),
   ("KEY_BACKSPACE", 14),
   ("DELETE", 111),
   ("KEY_DELETE", 111),
   ("INSERT", 110),
   ("KEY_INSERT", 110),
   ("HOME", 102),
   ("KEY_HOME", 102),
   ("END", 107),
   ("KEY_END", 107),
   ("PAGEUP", 104),
   ("KEY_PAGEUP", 104),
   ("PAGEDOWN", 109),
   ("KEY_PAGEDOWN", 109),
   ("UP", 103),
   ("KEY_UP", 103),
   ("DOWN", 108),
   ("KEY_DOWN", 108),
   ("LEFT", 105),
   ("KEY_LEFT", 105),
   ("RIGHT", 106),
   ("KEY_RIGHT", 106),
   ("F1", 59),
   ("KEY_F1", 59),
   ("F2", 60),
   ("KEY_F2", 60),
   ("F3", 61),
   ("KEY_F3", 61),
   ("F4", 62),
   ("KEY_F4", 62),
   ("F5", 63),
   ("KEY_F5", 63),
   ("F6", 64),
   ("KEY_F6", 64),
   ("F7", 65),
   ("KEY_F7", 65),
   ("F8", 66),
   ("KEY_F8", 66),
   ("F9", 67),
   ("KEY_F9", 67),
   ("F10", 68),
   ("KEY_F10", 68),
   ("F11", 87),
   ("KEY_F11", 87),
   ("F12", 88),
   ("KEY_F12", 88),
   ("F13", 183),
   ("KEY_F13", 183),
   ("F14", 184),
   ("KEY_F14", 184),
   ("F15", 185),
   ("KEY_F15", 185),
   ("F16", 186),
   ("KEY_F16", 186),
   ("F17", 187),
   ("KEY_F17", 187),
   ("F18", 188),
   ("KEY_F18", 188),
   ("F19", 189),
   ("KEY_F19", 189),
   ("F20", 190),
   ("KEY_F20", 190),
   ("F21", 191),
   ("KEY_F21", 191),
   ("F22", 192),
   ("KEY_F22", 192),
   ("F23", 193),
   ("KEY_F23", 193),
   ("F24", 194),
   ("KEY_F24", 194),
   ("MUTE", 113),
   ("KEY_MUTE", 113),
   ("VOL_DOWN", 114),
   ("KEY_VOLUMEDOWN", 114),
   ("VOL_UP", 115),
   ("KEY_VOLUMEUP", 115),
   ("PLAY_PAUSE", 164),
   ("KEY_PLAYPAUSE", 164),
   ("STOP", 166),
   ("KEY_STOPCD", 166),
   ("PREV_TRACK", 165),
   ("KEY_PREVIOUSSONG", 165),
   ("NEXT_TRACK", 163),
   ("KEY_NEXTSONG", 163),
   ("PRINT_SCREEN", 99),
   ("KEY_SYSRQ", 99),
   ("SCROLL_LOCK", 70),
   ("KEY_SCROLLLOCK", 70),
   ("PAUSE", 119),
   ("KEY_PAUSE", 119),
   ("A", 30),
   ("KEY_A", 30),
   ("B", 48),
   ("KEY_B", 48),
   ("C", 46),
   ("KEY_C", 46),
   ("D", 32),
   ("KEY_D", 32),
   ("E", 18),
   ("KEY_E", 18),
   ("F", 33),
   ("KEY_F", 33),
   ("G", 34),
   ("KEY_G", 34),
   ("H", 35),
   ("KEY_H", 35),
   ("I", 23),
   ("KEY_I", 23),
   ("J", 36),
   ("KEY_J", 36),
   ("K", 37),
   ("KEY_K", 37),
   ("L", 38),
   ("KEY_L", 38),
   ("M", 50),
   ("KEY_M", 50),
   ("N", 49),
   ("KEY_N", 49),
   ("O", 24),
   ("KEY_O", 24),
   ("P", 25),
   ("KEY_P", 25),
   ("Q", 16),
   ("KEY_Q", 16),
   ("R", 19),
   ("KEY_R", 19),
   ("S", 31),
   ("KEY_S", 31),
   ("T", 20),
   ("KEY_T", 20),
   ("U", 22),
   ("KEY_U", 22),
   ("V", 47),
   ("KEY_V", 47),
   ("W", 17),
   ("KEY_W", 17),
   ("X", 45),
   ("KEY_X", 45),
   ("Y", 21),
   ("KEY_Y", 21),
   ("Z", 44),
   ("KEY_Z", 44),
   ("0", 11),
   ("KEY_0", 11),
   ("1", 2),
   ("KEY_1", 2),
   ("2", 3),
   ("KEY_2", 3),
   ("3", 4),
   ("KEY_3", 4),
   ("4", 5),
   ("KEY_4", 5),
   ("5", 6),
   ("KEY_5", 6),
   ("6", 7),
   ("KEY_6", 7),
   ("7", 8),
   ("KEY_7", 8),
   ("8", 9),
   ("KEY_8", 9),
   ("9", 10),
   ("KEY_9", 10),
   ("NUM_0", 82),
   ("KEY_KP0", 82),
   ("NUM_1", 79),
   ("KEY_KP1", 79)]

/-- Intermediate fold value (see the `..._computes` theorems). -/
def SCHEMA_TO_EVDEV_rev_26 : List (String × String) :=
  [("MOUSE_LEFT", "BTN_LEFT"),
   ("MOUSE_RIGHT", "BTN_RIGHT"),
   ("MOUSE_MIDDLE", "BTN_MIDDLE"),
   ("MOUSE_SIDE", "BTN_SIDE"),
   ("MOUSE_EXTRA", "BTN_EXTRA"),
   ("MOUSE_FORWARD", "BTN_FORWARD"),
   ("MOUSE_BACK", "BTN_BACK"),
   ("MOUSE_TASK", "BTN_TASK"),
   ("CTRL", "KEY_LEFTCTRL"),
   ("CTRL_R", "KEY_RIGHTCTRL"),
   ("SHIFT", "KEY_LEFTSHIFT"),
   ("SHIFT_R", "KEY_RIGHTSHIFT"),
   ("ALT", "KEY_LEFTALT"),
   ("ALT_R", "KEY_RIGHTALT"),
   ("META", "KEY_LEFTMETA"),
   ("META_R", "KEY_RIGHTMETA"),
   ("ESC", "KEY_ESC"),
   ("TAB", "KEY_TAB"),
   ("CAPS", "KEY_CAPSLOCK"),
   ("ENTER", "KEY_ENTER"),
   ("SPACE", "KEY_SPACE"),
   ("BACKSPACE", "KEY_BACKSPACE"),
   ("DELETE", "KEY_DELETE"),
   ("INSERT", "KEY_INSERT"),
   ("HOME", "KEY_HOME"),
   ("END", "KEY_END")]

/-- Intermediate fold value (see the `..._computes` theorems). -/
def SCHEMA_TO_EVDEV_rev_52 : List (String × String) :=
  [("MOUSE_LEFT", "BTN_LEFT"),
   ("MOUSE_RIGHT", "BTN_RIGHT"),
   ("MOUSE_MIDDLE", "BTN_MIDDLE"),
   ("MOUSE_SIDE", "BTN_SIDE"),
   ("MOUSE_EXTRA", "BTN_EXTRA"),
   ("MOUSE_FORWARD", "BTN_FORWARD"),
   ("MOUSE_BACK", "BTN_BACK"),
   ("MOUSE_TASK", "BTN_TASK"),
   ("CTRL", "KEY_LEFTCTRL"),
   ("CTRL_R", "KEY_RIGHTCTRL"),
   ("SHIFT", "KEY_LEFTSHIFT"),
   ("SHIFT_R", "KEY_RIGHTSHIFT"),
   ("ALT", "KEY_LEFTALT"),
   ("ALT_R", "KEY_RIGHTALT"),
   ("META", "KEY_LEFTMETA"),
   ("META_R", "KEY_RIGHTMETA"),
   ("ESC", "KEY_ESC"),
   ("TAB", "KEY_TAB"),
   ("CAPS", "KEY_CAPSLOCK"),
   ("ENTER", "KEY_ENTER"),
   ("SPACE", "KEY_SPACE"),
   ("BACKSPACE", "KEY_BACKSPACE"),
   ("DELETE", "KEY_DELETE"),
   ("INSERT", "KEY_INSERT"),
   ("HOME", "KEY_HOME"),
   ("END", "KEY_END"),
   ("PAGEUP", "KEY_PAGEUP"),
   ("PAGEDOWN", "KEY_PAGEDOWN"),
   ("UP", "KEY_UP"),
   ("DOWN", "KEY_DOWN"),
   ("LEFT", "KEY_LEFT"),
   ("RIGHT", "KEY_RIGHT"),
   ("F1", "KEY_F1"),
   ("F2", "KEY_F2"),
   ("F3", "KEY_F3"),
   ("F4", "KEY_F4"),
   ("F5", "KEY_F5"),
   ("F6", "KEY_F6"),
   ("F7", "KEY_F7"),
   ("F8", "KEY_F8"),
   ("F9", "KEY_F9"),
   ("F10", "KEY_F10"),
   ("F11", "KEY_F11"),
   ("F12", "KEY_F12"),
   ("F13", "KEY_F13"),
   ("F14", "KEY_F14"),
   ("F15", "KEY_F15"),
   ("F16", "KEY_F16"),
   ("F17", "KEY_F17"),
   ("F18", "KEY_F18"),
   ("F19", "KEY_F19"),
   ("F20", "KEY_F20")]

/-- Intermediate fold value (see the `..._computes` theorems). -/
def SCHEMA_TO_EVDEV_rev_78 : List (String × String) :=
  [("MOUSE_LEFT", "BTN_LEFT"),
   ("MOUSE_RIGHT", "BTN_RIGHT"),
   ("MOUSE_MIDDLE", "BTN_MIDDLE"),
   ("MOUSE_SIDE", "BTN_SIDE"),
   ("MOUSE_EXTRA", "BTN_EXTRA"),
   ("MOUSE_FORWARD", "BTN_FORWARD"),
   ("MOUSE_BACK", "BTN_BACK"),
   ("MOUSE_TASK", "BTN_TASK"),
   ("CTRL", "KEY_LEFTCTRL"),
   ("CTRL_R", "KEY_RIGHTCTRL"),
   ("SHIFT", "KEY_LEFTSHIFT"),
   ("SHIFT_R", "KEY_RIGHTSHIFT"),
   ("ALT", "KEY_LEFTALT"),
   ("ALT_R", "KEY_RIGHTALT"),
   ("META", "KEY_LEFTMETA"),
   ("META_R", "KEY_RIGHTMETA"),
   ("ESC", "KEY_ESC"),
   ("TAB", "KEY_TAB"),
   ("CAPS", "KEY_CAPSLOCK"),
   ("ENTER", "KEY_ENTER"),
   ("SPACE", "KEY_SPACE"),
   ("BACKSPACE", "KEY_BACKSPACE"),
   ("DELETE", "KEY_DELETE"),
   ("INSERT", "KEY_INSERT"),
   ("HOME", "KEY_HOME"),
   ("END", "KEY_END"),
   ("PAGEUP", "KEY_PAGEUP"),
   ("PAGEDOWN", "KEY_PAGEDOWN"),
   ("UP", "KEY_UP"),
   ("DOWN", "KEY_DOWN"),
   ("LEFT", "KEY_LEFT"),
   ("RIGHT", "KEY_RIGHT"),
   ("F1", "KEY_F1"),
   ("F2", "KEY_F2"),
   ("F3", "KEY_F3"),
   ("F4", "KEY_F4"),
   ("F5", "KEY_F5"),
   ("F6", "KEY_F6"),
   ("F7", "KEY_F7"),
   ("F8", "KEY_F8"),
   ("F9", "KEY_F9"),
   ("F10", "KEY_F10"),
   ("F11", "KEY_F11"),
   ("F12", "KEY_F12"),
   ("F13", "KEY_F13"),
   ("F14", "KEY_F14"),
   ("F15", "KEY_F15"),
   ("F16", "KEY_F16"),
   ("F17", "KEY_F17"),
   ("F18", "KEY_F18"),
   ("F19", "KEY_F19"),
   ("F20", "KEY_F20"),
   ("F21", "KEY_F21"),
   ("F22", "KEY_F22"),
   ("F23", "KEY_F23"),
   ("F24", "KEY_F24"),
   ("MUTE", "KEY_MUTE"),
   ("VOL_DOWN", "KEY_VOLUMEDOWN"),
   ("VOL_UP", "KEY_VOLUMEUP"),
   ("PLAY_PAUSE", "KEY_PLAYPAUSE"),
   ("STOP", "KEY_STOPCD"),
   ("PREV_TRACK", "KEY_PREVIOUSSONG"),
   ("NEXT_TRACK", "KEY_NEXTSONG"),
   ("PRINT_SCREEN", "KEY_SYSRQ"),
   ("SCROLL_LOCK", "KEY_SCROLLLOCK"),
   ("PAUSE", "KEY_PAUSE"),
   ("A", "KEY_A"),
   ("B", "KEY_B"),
   ("C", "KEY_C"),
   ("D", "KEY_D"),
   ("E", "KEY_E"),
   ("F", "KEY_F"),
   ("G", "KEY_G"),
   ("H", "KEY_H"),
   ("I", "KEY_I"),
   ("J", "KEY_J"),
   ("K", "KEY_K"),
   ("L", "KEY_L")]

/-- Intermediate fold value (see the `..._computes` theorems). -/
def SCHEMA_TO_EVDEV_rev_104 : List (String × String) :=
  [("MOUSE_LEFT", "BTN_LEFT"),
   ("MOUSE_RIGHT", "BTN_RIGHT"),
   ("MOUSE_MIDDLE", "BTN_MIDDLE"),
   ("MOUSE_SIDE", "BTN_SIDE"),
   ("MOUSE_EXTRA", "BTN_EXTRA"),
   ("MOUSE_FORWARD", "BTN_FORWARD"),
   ("MOUSE_BACK", "BTN_BACK"),
   ("MOUSE_TASK", "BTN_TASK"),
   ("CTRL", "KEY_LEFTCTRL"),
   ("CTRL_R", "KEY_RIGHTCTRL"),
   ("SHIFT", "KEY_LEFTSHIFT"),
   ("SHIFT_R", "KEY_RIGHTSHIFT"),
   ("ALT", "KEY_LEFTALT"),
   ("ALT_R", "KEY_RIGHTALT"),
   ("META", "KEY_LEFTMETA"),
   ("META_R", "KEY_RIGHTMETA"),
   ("ESC", "KEY_ESC"),
   ("TAB", "KEY_TAB"),
   ("CAPS", "KEY_CAPSLOCK"),
   ("ENTER", "KEY_ENTER"),
   ("SPACE", "KEY_SPACE"),
   ("BACKSPACE", "KEY_BACKSPACE"),
   ("DELETE", "KEY_DELETE"),
   ("INSERT", "KEY_INSERT"),
   ("HOME", "KEY_HOME"),
   ("END", "KEY_END"),
   ("PAGEUP", "KEY_PAGEUP"),
   ("PAGEDOWN", "KEY_PAGEDOWN"),
   ("UP", "KEY_UP"),
   ("DOWN", "KEY_DOWN"),
   ("LEFT", "KEY_LEFT"),
   ("RIGHT", "KEY_RIGHT"),
   ("F1", "KEY_F1"),
   ("F2", "KEY_F2"),
   ("F3", "KEY_F3"),
   ("F4", "KEY_F4"),
   ("F5", "KEY_F5"),
   ("F6", "KEY_F6"),
   ("F7", "KEY_F7"),
   ("F8", "KEY_F8"),
   ("F9", "KEY_F9"),
   ("F10", "KEY_F10"),
   ("F11", "KEY_F11"),
   ("F12", "KEY_F12"),
   ("F13", "KEY_F13"),
   ("F14", "KEY_F14"),
   ("F15", "KEY_F15"),
   ("F16", "KEY_F16"),
   ("F17", "KEY_F17"),
   ("F18", "KEY_F18"),
   ("F19", "KEY_F19"),
   ("F20", "KEY_F20"),
   ("F21", "KEY_F21"),
   ("F22", "KEY_F22"),
   ("F23", "KEY_F23"),
   ("F24", "KEY_F24"),
   ("MUTE", "KEY_MUTE"),
   ("VOL_DOWN", "KEY_VOLUMEDOWN"),
   ("VOL_UP", "KEY_VOLUMEUP"),
   ("PLAY_PAUSE", "KEY_PLAYPAUSE"),
   ("STOP", "KEY_STOPCD"),
   ("PREV_TRACK", "KEY_PREVIOUSSONG"),
   ("NEXT_TRACK", "KEY_NEXTSONG"),
   ("PRINT_SCREEN", "KEY_SYSRQ"),
   ("SCROLL_LOCK", "KEY_SCROLLLOCK"),
   ("PAUSE", "KEY_PAUSE"),
   ("A", "KEY_A"),
   ("B", "KEY_B"),
   ("C", "KEY_C"),
   ("D", "KEY_D"),
   ("E", "KEY_E"),
   ("F", "KEY_F"),
   ("G", "KEY_G"),
   ("H", "KEY_H"),
   ("I", "KEY_I"),
   ("J", "KEY_J"),
   ("K", "KEY_K"),
   ("L", "KEY_L"),
   ("M", "KEY_M"),
   ("N", "KEY_N"),
   ("O", "KEY_O"),
   ("P", "KEY_P"),
   ("Q", "KEY_Q"),
   ("R", "KEY_R"),
   ("S", "KEY_S"),
   ("T", "KEY_T"),
   ("U", "KEY_U"),
   ("V", "KEY_V"),
   ("W", "KEY_W"),
   ("X", "KEY_X"),
   ("Y", "KEY_Y"),
   ("Z", "KEY_Z"),
   ("0", "KEY_0"),
   ("1", "KEY_1"),
   ("2", "KEY_2"),
   ("3", "KEY_3"),
   ("4", "KEY_4"),
   ("5", "KEY_5"),
   ("6", "KEY_6"),
   ("7", "KEY_7"),
   ("8", "KEY_8"),
   ("9", "KEY_9"),
   ("NUM_0", "KEY_KP0"),
   ("NUM_1", "KEY_KP1")]

/-- Intermediate fold value (see the `..._computes` theorems). -/
def SCHEMA_TO_EVDEV_rev : List (String × String) :=
  [("MOUSE_LEFT", "BTN_LEFT"),
   ("MOUSE_RIGHT", "BTN_RIGHT"),
   ("MOUSE_MIDDLE", "BTN_MIDDLE"),
   ("MOUSE_SIDE", "BTN_SIDE"),
   ("MOUSE_EXTRA", "BTN_EXTRA"),
   ("MOUSE_FORWARD", "BTN_FORWARD"),
   ("MOUSE_BACK", "BTN_BACK"),
   ("MOUSE_TASK", "BTN_TASK"),
   ("CTRL", "KEY_LEFTCTRL"),
   ("CTRL_R", "KEY_RIGHTCTRL"),
   ("SHIFT", "KEY_LEFTSHIFT"),
   ("SHIFT_R", "KEY_RIGHTSHIFT"),
   ("ALT", "KEY_LEFTALT"),
   ("ALT_R", "KEY_RIGHTALT"),
   ("META", "KEY_LEFTMETA"),
   ("META_R", "KEY_RIGHTMETA"),
   ("ESC", "KEY_ESC"),
   ("TAB", "KEY_TAB"),
   ("CAPS", "KEY_CAPSLOCK"),
   ("ENTER", "KEY_ENTER"),
   ("SPACE", "KEY_SPACE"),
   ("BACKSPACE", "KEY_BACKSPACE"),
   ("DELETE", "KEY_DELETE"),
   ("INSERT", "KEY_INSERT"),
   ("HOME", "KEY_HOME"),
   ("END", "KEY_END"),
   ("PAGEUP", "KEY_PAGEUP"),
   ("PAGEDOWN", "KEY_PAGEDOWN"),
   ("UP", "KEY_UP"),
   ("DOWN", "KEY_DOWN"),
   ("LEFT", "KEY_LEFT"),
   ("RIGHT", "KEY_RIGHT"),
   ("F1", "KEY_F1"),
   ("F2", "KEY_F2"),
   ("F3", "KEY_F3"),
   ("F4", "KEY_F4"),
   ("F5", "KEY_F5"),
   ("F6", "KEY_F6"),
   ("F7", "KEY_F7"),
   ("F8", "KEY_F8"),
   ("F9", "KEY_F9"),
   ("F10", "KEY_F10"),
   ("F11", "KEY_F11"),
   ("F12", "KEY_F12"),
   ("F13", "KEY_F13"),
   ("F14", "KEY_F14"),
   ("F15", "KEY_F15"),
   ("F16", "KEY_F16"),
   ("F17", "KEY_F17"),
   ("F18", "KEY_F18"),
   ("F19", "KEY_F19"),
   ("F20", "KEY_F20"),
   ("F21", "KEY_F21"),
   ("F22", "KEY_F22"),
   ("F23", "KEY_F23"),
   ("F24", "KEY_F24"),
   ("MUTE", "KEY_MUTE"),
   ("VOL_DOWN", "KEY_VOLUMEDOWN"),
   ("VOL_UP", "KEY_VOLUMEUP"),
   ("PLAY_PAUSE", "KEY_PLAYPAUSE"),
   ("STOP", "KEY_STOPCD"),
   ("PREV_TRACK", "KEY_PREVIOUSSONG"),
   ("NEXT_TRACK", "KEY_NEXTSONG"),
   ("PRINT_SCREEN", "KEY_SYSRQ"),
   ("SCROLL_LOCK", "KEY_SCROLLLOCK"),
   ("PAUSE", "KEY_PAUSE"),
   ("A", "KEY_A"),
   ("B", "KEY_B"),
   ("C", "KEY_C"),
   ("D", "KEY_D"),
   ("E", "KEY_E"),
   ("F", "KEY_F"),
   ("G", "KEY_G"),
   ("H", "KEY_H"),
   ("I", "KEY_I"),
   ("J", "KEY_J"),
   ("K", "KEY_K"),
   ("L", "KEY_L"),
   ("M", "KEY_M"),
   ("N", "KEY_N"),
   ("O", "KEY_O"),
   ("P", "KEY_P"),
   ("Q", "KEY_Q"),
   ("R", "KEY_R"),
   ("S", "KEY_S"),
   ("T", "KEY_T"),
   ("U", "KEY_U"),
   ("V", "KEY_V"),
   ("W", "KEY_W"),
   ("X", "KEY_X"),
   ("Y", "KEY_Y"),
   ("Z", "KEY_Z"),
   ("0", "KEY_0"),
   ("1", "KEY_1"),
   ("2", "KEY_2"),
   ("3", "KEY_3"),
   ("4", "KEY_4"),
   ("5", "KEY_5"),
   ("6", "KEY_6"),
   ("7", "KEY_7"),
   ("8", "KEY_8"),
   ("9", "KEY_9"),
   ("NUM_0", "KEY_KP0"),
   ("NUM_1", "KEY_KP1"),
   ("NUM_2", "KEY_KP2"),
   ("NUM_3", "KEY_KP3"),
   ("NUM_4", "KEY_KP4"),
   ("NUM_5", "KEY_KP5"),
   ("NUM_6", "KEY_KP6"),
   ("NUM_7", "KEY_KP7"),
   ("NUM_8", "KEY_KP8"),
   ("NUM_9", "KEY_KP9"),
   ("NUM_ENTER", "KEY_KPENTER"),
   ("NUM_PLUS", "KEY_KPPLUS"),
   ("NUM_MINUS", "KEY_KPMINUS"),
   ("NUM_MULT", "KEY_KPASTERISK"),
   ("NUM_DIV", "KEY_KPSLASH"),
   ("NUM_DOT", "KEY_KPDOT"),
   ("NUM_LOCK", "KEY_NUMLOCK"),
   ("MINUS", "KEY_MINUS"),
   ("EQUAL", "KEY_EQUAL"),
   ("LBRACKET", "KEY_LEFTBRACE"),
   ("RBRACKET", "KEY_RIGHTBRACE"),
   ("SEMICOLON", "KEY_SEMICOLON"),
   ("APOSTROPHE", "KEY_APOSTROPHE"),
   ("GRAVE", "KEY_GRAVE"),
   ("BACKSLASH", "KEY_BACKSLASH"),
   ("COMMA", "KEY_COMMA"),
   ("DOT", "KEY_DOT"),
   ("SLASH", "KEY_SLASH")]

/-- Intermediate fold value (see the `..._computes` theorems). -/
def SCHEMA_TO_EVDEV_ident_26 : List (String × String) :=
  [("MOUSE_LEFT", "BTN_LEFT"),
   ("MOUSE_RIGHT", "BTN_RIGHT"),
   ("MOUSE_MIDDLE", "BTN_MIDDLE"),
   ("MOUSE_SIDE", "BTN_SIDE"),
   ("MOUSE_EXTRA", "BTN_EXTRA"),
   ("MOUSE_FORWARD", "BTN_FORWARD"),
   ("MOUSE_BACK", "BTN_BACK"),
   ("MOUSE_TASK", "BTN_TASK"),
   ("CTRL", "KEY_LEFTCTRL"),
   ("CTRL_R", "KEY_RIGHTCTRL"),
   ("SHIFT", "KEY_LEFTSHIFT"),
   ("SHIFT_R", "KEY_RIGHTSHIFT"),
   ("ALT", "KEY_LEFTALT"),
   ("ALT_R", "KEY_RIGHTALT"),
   ("META", "KEY_LEFTMETA"),
   ("META_R", "KEY_RIGHTMETA"),
   ("ESC", "KEY_ESC"),
   ("TAB", "KEY_TAB"),
   ("CAPS", "KEY_CAPSLOCK"),
   ("ENTER", "KEY_ENTER"),
   ("SPACE", "KEY_SPACE"),
   ("BACKSPACE", "KEY_BACKSPACE"),
   ("DELETE", "KEY_DELETE"),
   ("INSERT", "KEY_INSERT"),
   ("HOME", "KEY_HOME"),
   ("END", "KEY_END"),
   ("PAGEUP", "KEY_PAGEUP"),
   ("PAGEDOWN", "KEY_PAGEDOWN"),
   ("UP", "KEY_UP"),
   ("DOWN", "KEY_DOWN"),
   ("LEFT", "KEY_LEFT"),
   ("RIGHT", "KEY_RIGHT"),
   ("F1", "KEY_F1"),
   ("F2", "KEY_F2"),
   ("F3", "KEY_F3"),
   ("F4", "KEY_F4"),
   ("F5", "KEY_F5"),
   ("F6", "KEY_F6"),
   ("F7", "KEY_F7"),
   ("F8", "KEY_F8"),
   ("F9", "KEY_F9"),
   ("F10", "KEY_F10"),
   ("F11", "KEY_F11"),
   ("F12", "KEY_F12"),
   ("F13", "KEY_F13"),
   ("F14", "KEY_F14"),
   ("F15", "KEY_F15"),
   ("F16", "KEY_F16"),
   ("F17", "KEY_F17"),
   ("F18", "KEY_F18"),
   ("F19", "KEY_F19"),
   ("F20", "KEY_F20"),
   ("F21", "KEY_F21"),
   ("F22", "KEY_F22"),
   ("F23", "KEY_F23"),
   ("F24", "KEY_F24"),
   ("MUTE", "KEY_MUTE"),
   ("VOL_DOWN", "KEY_VOLUMEDOWN"),
   ("VOL_UP", "KEY_VOLUMEUP"),
   ("PLAY_PAUSE", "KEY_PLAYPAUSE"),
   ("STOP", "KEY_STOPCD"),
   ("PREV_TRACK", "KEY_PREVIOUSSONG"),
   ("NEXT_TRACK", "KEY_NEXTSONG"),
   ("PRINT_SCREEN", "KEY_SYSRQ"),
   ("SCROLL_LOCK", "KEY_SCROLLLOCK"),
   ("PAUSE", "KEY_PAUSE"),
   ("A", "KEY_A"),
   ("B", "KEY_B"),
   ("C", "KEY_C"),
   ("D", "KEY_D"),
   ("E", "KEY_E"),
   ("F", "KEY_F"),
   ("G", "KEY_G"),
   ("H", "KEY_H"),
   ("I", "KEY_I"),
   ("J", "KEY_J"),
   ("K", "KEY_K"),
   ("L", "KEY_L"),
   ("M", "KEY_M"),
   ("N", "KEY_N"),
   ("O", "KEY_O"),
   ("P", "KEY_P"),
   ("Q", "KEY_Q"),
   ("R", "KEY_R"),
   ("S", "KEY_S"),
   ("T", "KEY_T"),
   ("U", "KEY_U"),
   ("V", "KEY_V"),
   ("W", "KEY_W"),
   ("X", "KEY_X"),
   ("Y", "KEY_Y"),
   ("Z", "KEY_Z"),
   ("0", "KEY_0"),
   ("1", "KEY_1"),
   ("2", "KEY_2"),
   ("3", "KEY_3"),
   ("4", "KEY_4"),
   ("5", "KEY_5"),
   ("6", "KEY_6"),
   ("7", "KEY_7"),
   ("8", "KEY_8"),
   ("9", "KEY_9"),
   ("NUM_0", "KEY_KP0"),
   ("NUM_1", "KEY_KP1"),
   ("NUM_2", "KEY_KP2"),
   ("NUM_3", "KEY_KP3"),
   ("NUM_4", "KEY_KP4"),
   ("NUM_5", "KEY_KP5"),
   ("NUM_6", "KEY_KP6"),
   ("NUM_7", "KEY_KP7"),
   ("NUM_8", "KEY_KP8"),
   ("NUM_9", "KEY_KP9"),
   ("NUM_ENTER", "KEY_KPENTER"),
   ("NUM_PLUS", "KEY_KPPLUS"),
   ("NUM_MINUS", "KEY_KPMINUS"),
   ("NUM_MULT", "KEY_KPASTERISK"),
   ("NUM_DIV", "KEY_KPSLASH"),
   ("NUM_DOT", "KEY_KPDOT"),
   ("NUM_LOCK", "KEY_NUMLOCK"),
   ("MINUS", "KEY_MINUS"),
   ("EQUAL", "KEY_EQUAL"),
   ("LBRACKET", "KEY_LEFTBRACE"),
   ("RBRACKET", "KEY_RIGHTBRACE"),
   ("SEMICOLON", "KEY_SEMICOLON"),
   ("APOSTROPHE", "KEY_APOSTROPHE"),
   ("GRAVE", "KEY_GRAVE"),
   ("BACKSLASH", "KEY_BACKSLASH"),
   ("COMMA", "KEY_COMMA"),
   ("DOT", "KEY_DOT"),
   ("SLASH", "KEY_SLASH"),
   ("BTN_LEFT", "BTN_LEFT"),
   ("BTN_RIGHT", "BTN_RIGHT"),
   ("BTN_MIDDLE", "BTN_MIDDLE"),
   ("BTN_SIDE", "BTN_SIDE"),
   ("BTN_EXTRA", "BTN_EXTRA"),
   ("BTN_FORWARD", "BTN_FORWARD"),
   ("BTN_BACK", "BTN_BACK"),
   ("BTN_TASK", "BTN_TASK"),
   ("KEY_LEFTCTRL", "KEY_LEFTCTRL"),
   ("KEY_RIGHTCTRL", "KEY_RIGHTCTRL"),
   ("KEY_LEFTSHIFT", "KEY_LEFTSHIFT"),
   ("KEY_RIGHTSHIFT", "KEY_RIGHTSHIFT"),
   ("KEY_LEFTALT", "KEY_LEFTALT"),
   ("KEY_RIGHTALT", "KEY_RIGHTALT"),
   ("KEY_LEFTMETA", "KEY_LEFTMETA"),
   ("KEY_RIGHTMETA", "KEY_RIGHTMETA"),
   ("KEY_ESC", "KEY_ESC"),
   ("KEY_TAB", "KEY_TAB"),
   ("KEY_CAPSLOCK", "KEY_CAPSLOCK"),
   ("KEY_ENTER", "KEY_ENTER"),
   ("KEY_SPACE", "KEY_SPACE"),
   ("KEY_BACKSPACE", "KEY_BACKSPACE"),
   ("KEY_DELETE", "KEY_DELETE"),
   ("KEY_INSERT", "KEY_INSERT"),
   ("KEY_HOME", "KEY_HOME"),
   ("KEY_END", "KEY_END")]

/-- Intermediate fold value (see the `..._computes` theorems). -/
def SCHEMA_TO_EVDEV_ident_52 : List (String × String) :=
  [("MOUSE_LEFT", "BTN_LEFT"),
   ("MOUSE_RIGHT", "BTN_RIGHT"),
   ("MOUSE_MIDDLE", "BTN_MIDDLE"),
   ("MOUSE_SIDE", "BTN_SIDE"),
   ("MOUSE_EXTRA", "BTN_EXTRA"),
   ("MOUSE_FORWARD", "BTN_FORWARD"),
   ("MOUSE_BACK", "BTN_BACK"),
   ("MOUSE_TASK", "BTN_TASK"),
   ("CTRL", "KEY_LEFTCTRL"),
   ("CTRL_R", "KEY_RIGHTCTRL"),
   ("SHIFT", "KEY_LEFTSHIFT"),
   ("SHIFT_R", "KEY_RIGHTSHIFT"),
   ("ALT", "KEY_LEFTALT"),
   ("ALT_R", "KEY_RIGHTALT"),
   ("META", "KEY_LEFTMETA"),
   ("META_R", "KEY_RIGHTMETA"),
   ("ESC", "KEY_ESC"),
   ("TAB", "KEY_TAB"),
   ("CAPS", "KEY_CAPSLOCK"),
   ("ENTER", "KEY_ENTER"),
   ("SPACE", "KEY_SPACE"),
   ("BACKSPACE", "KEY_BACKSPACE"),
   ("DELETE", "KEY_DELETE"),
   ("INSERT", "KEY_INSERT"),
   ("HOME", "KEY_HOME"),
   ("END", "KEY_END"),
   ("PAGEUP", "KEY_PAGEUP"),
   ("PAGEDOWN", "KEY_PAGEDOWN"),
   ("UP", "KEY_UP"),
   ("DOWN", "KEY_DOWN"),
   ("LEFT", "KEY_LEFT"),
   ("RIGHT", "KEY_RIGHT"),
   ("F1", "KEY_F1"),
   ("F2", "KEY_F2"),
   ("F3", "KEY_F3"),
   ("F4", "KEY_F4"),
   ("F5", "KEY_F5"),
   ("F6", "KEY_F6"),
   ("F7", "KEY_F7"),
   ("F8", "KEY_F8"),
   ("F9", "KEY_F9"),
   ("F10", "KEY_F10"),
   ("F11", "KEY_F11"),
   ("F12", "KEY_F12"),
   ("F13", "KEY_F13"),
   ("F14", "KEY_F14"),
   ("F15", "KEY_F15"),
   ("F16", "KEY_F16"),
   ("F17", "KEY_F17"),
   ("F18", "KEY_F18"),
   ("F19", "KEY_F19"),
   ("F20", "KEY_F20"),
   ("F21", "KEY_F21"),
   ("F22", "KEY_F22"),
   ("F23", "KEY_F23"),
   ("F24", "KEY_F24"),
   ("MUTE", "KEY_MUTE"),
   ("VOL_DOWN", "KEY_VOLUMEDOWN"),
   ("VOL_UP", "KEY_VOLUMEUP"),
   ("PLAY_PAUSE", "KEY_PLAYPAUSE"),
   ("STOP", "KEY_STOPCD"),
   ("PREV_TRACK", "KEY_PREVIOUSSONG"),
   ("NEXT_TRACK", "KEY_NEXTSONG"),
   ("PRINT_SCREEN", "KEY_SYSRQ"),
   ("SCROLL_LOCK", "KEY_SCROLLLOCK"),
   ("PAUSE", "KEY_PAUSE"),
   ("A", "KEY_A"),
   ("B", "KEY_B"),
   ("C", "KEY_C"),
   ("D", "KEY_D"),
   ("E", "KEY_E"),
   ("F", "KEY_F"),
   ("G", "KEY_G"),
   ("H", "KEY_H"),
   ("I", "KEY_I"),
   ("J", "KEY_J"),
   ("K", "KEY_K"),
   ("L", "KEY_L"),
   ("M", "KEY_M"),
   ("N", "KEY_N"),
   ("O", "KEY_O"),
   ("P", "KEY_P"),
   ("Q", "KEY_Q"),
   ("R", "KEY_R"),
   ("S", "KEY_S"),
   ("T", "KEY_T"),
   ("U", "KEY_U"),
   ("V", "KEY_V"),
   ("W", "KEY_W"),
   ("X", "KEY_X"),
   ("Y", "KEY_Y"),
   ("Z", "KEY_Z"),
   ("0", "KEY_0"),
   ("1", "KEY_1"),
   ("2", "KEY_2"),
   ("3", "KEY_3"),
   ("4", "KEY_4"),
   ("5", "KEY_5"),
   ("6", "KEY_6"),
   ("7", "KEY_7"),
   ("8", "KEY_8"),
   ("9", "KEY_9"),
   ("NUM_0", "KEY_KP0"),
   ("NUM_1", "KEY_KP1"),
   ("NUM_2", "KEY_KP2"),
   ("NUM_3", "KEY_KP3"),
   ("NUM_4", "KEY_KP4"),
   ("NUM_5", "KEY_KP5"),
   ("NUM_6", "KEY_KP6"),
   ("NUM_7", "KEY_KP7"),
   ("NUM_8", "KEY_KP8"),
   ("NUM_9", "KEY_KP9"),
   ("NUM_ENTER", "KEY_KPENTER"),
   ("NUM_PLUS", "KEY_KPPLUS"),
   ("NUM_MINUS", "KEY_KPMINUS"),
   ("NUM_MULT", "KEY_KPASTERISK"),
   ("NUM_DIV", "KEY_KPSLASH"),
   ("NUM_DOT", "KEY_KPDOT"),
   ("NUM_LOCK", "KEY_NUMLOCK"),
   ("MINUS", "KEY_MINUS"),
   ("EQUAL", "KEY_EQUAL"),
   ("LBRACKET", "KEY_LEFTBRACE"),
   ("RBRACKET", "KEY_RIGHTBRACE"),
   ("SEMICOLON", "KEY_SEMICOLON"),
   ("APOSTROPHE", "KEY_APOSTROPHE"),
   ("GRAVE", "KEY_GRAVE"),
   ("BACKSLASH", "KEY_BACKSLASH"),
   ("COMMA", "KEY_COMMA"),
   ("DOT", "KEY_DOT"),
   ("SLASH", "KEY_SLASH"),
   ("BTN_LEFT", "BTN_LEFT"),
   ("BTN_RIGHT", "BTN_RIGHT"),
   ("BTN_MIDDLE", "BTN_MIDDLE"),
   ("BTN_SIDE", "BTN_SIDE"),
   ("BTN_EXTRA", "BTN_EXTRA"),
   ("BTN_FORWARD", "BTN_FORWARD"),
   ("BTN_BACK", "BTN_BACK"),
   ("BTN_TASK", "BTN_TASK"),
   ("KEY_LEFTCTRL", "KEY_LEFTCTRL"),
   ("KEY_RIGHTCTRL", "KEY_RIGHTCTRL"),
   ("KEY_LEFTSHIFT", "KEY_LEFTSHIFT"),
   ("KEY_RIGHTSHIFT", "KEY_RIGHTSHIFT"),
   ("KEY_LEFTALT", "KEY_LEFTALT"),
   ("KEY_RIGHTALT", "KEY_RIGHTALT"),
   ("KEY_LEFTMETA", "KEY_LEFTMETA"),
   ("KEY_RIGHTMETA", "KEY_RIGHTMETA"),
   ("KEY_ESC", "KEY_ESC"),
   ("KEY_TAB", "KEY_TAB"),
   ("KEY_CAPSLOCK", "KEY_CAPSLOCK"),
   ("KEY_ENTER", "KEY_ENTER"),
   ("KEY_SPACE", "KEY_SPACE"),
   ("KEY_BACKSPACE", "KEY_BACKSPACE"),
   ("KEY_DELETE", "KEY_DELETE"),
   ("KEY_INSERT", "KEY_INSERT"),
   ("KEY_HOME", "KEY_HOME"),
   ("KEY_END", "KEY_END"),
   ("KEY_PAGEUP", "KEY_PAGEUP"),
   ("KEY_PAGEDOWN", "KEY_PAGEDOWN"),
   ("KEY_UP", "KEY_UP"),
   ("KEY_DOWN", "KEY_DOWN"),
   ("KEY_LEFT", "KEY_LEFT"),
   ("KEY_RIGHT", "KEY_RIGHT"),
   ("KEY_F1", "KEY_F1"),
   ("KEY_F2", "KEY_F2"),
   ("KEY_F3", "KEY_F3"),
   ("KEY_F4", "KEY_F4"),
   ("KEY_F5", "KEY_F5"),
   ("KEY_F6", "KEY_F6"),
   ("KEY_F7", "KEY_F7"),
   ("KEY_F8", "KEY_F8"),
   ("KEY_F9", "KEY_F9"),
   ("KEY_F10", "KEY_F10"),
   ("KEY_F11", "KEY_F11"),
   ("KEY_F12", "KEY_F12"),
   ("KEY_F13", "KEY_F13"),
   ("KEY_F14", "KEY_F14"),
   ("KEY_F15", "KEY_F15"),
   ("KEY_F16", "KEY_F16"),
   ("KEY_F17", "KEY_F17"),
   ("KEY_F18", "KEY_F18"),
   ("KEY_F19", "KEY_F19"),
   ("KEY_F20", "KEY_F20")]

/-- Intermediate fold value (see the `..._computes` theorems). -/
def SCHEMA_TO_EVDEV_ident_78 : List (String × String) :=
  [("MOUSE_LEFT", "BTN_LEFT"),
   ("MOUSE_RIGHT", "BTN_RIGHT"),
   ("MOUSE_MIDDLE", "BTN_MIDDLE"),
   ("MOUSE_SIDE", "BTN_SIDE"),
   ("MOUSE_EXTRA", "BTN_EXTRA"),
   ("MOUSE_FORWARD", "BTN_FORWARD"),
   ("MOUSE_BACK", "BTN_BACK"),
   ("MOUSE_TASK", "BTN_TASK"),
   ("CTRL", "KEY_LEFTCTRL"),
   ("CTRL_R", "KEY_RIGHTCTRL"),
   ("SHIFT", "KEY_LEFTSHIFT"),
   ("SHIFT_R", "KEY_RIGHTSHIFT"),
   ("ALT", "KEY_LEFTALT"),
   ("ALT_R", "KEY_RIGHTALT"),
   ("META", "KEY_LEFTMETA"),
   ("META_R", "KEY_RIGHTMETA"),
   ("ESC", "KEY_ESC"),
   ("TAB", "KEY_TAB"),
   ("CAPS", "KEY_CAPSLOCK"),
   ("ENTER", "KEY_ENTER"),
   ("SPACE", "KEY_SPACE"),
   ("BACKSPACE", "KEY_BACKSPACE"),
   ("DELETE", "KEY_DELETE"),
   ("INSERT", "KEY_INSERT"),
   ("HOME", "KEY_HOME"),
   ("END", "KEY_END"),
   ("PAGEUP", "KEY_PAGEUP"),
   ("PAGEDOWN", "KEY_PAGEDOWN"),
   ("UP", "KEY_UP"),
   ("DOWN", "KEY_DOWN"),
   ("LEFT", "KEY_LEFT"),
   ("RIGHT", "KEY_RIGHT"),
   ("F1", "KEY_F1"),
   ("F2", "KEY_F2"),
   ("F3", "KEY_F3"),
   ("F4", "KEY_F4"),
   ("F5", "KEY_F5"),
   ("F6", "KEY_F6"),
   ("F7", "KEY_F7"),
   ("F8", "KEY_F8"),
   ("F9", "KEY_F9"),
   ("F10", "KEY_F10"),
   ("F11", "KEY_F11"),
   ("F12", "KEY_F12"),
   ("F13", "KEY_F13"),
   ("F14", "KEY_F14"),
   ("F15", "KEY_F15"),
   ("F16", "KEY_F16"),
   ("F17", "KEY_F17"),
   ("F18", "KEY_F18"),
   ("F19", "KEY_F19"),
   ("F20", "KEY_F20"),
   ("F21", "KEY_F21"),
   ("F22", "KEY_F22"),
   ("F23", "KEY_F23"),
   ("F24", "KEY_F24"),
   ("MUTE", "KEY_MUTE"),
   ("VOL_DOWN", "KEY_VOLUMEDOWN"),
   ("VOL_UP", "KEY_VOLUMEUP"),
   ("PLAY_PAUSE", "KEY_PLAYPAUSE"),
   ("STOP", "KEY_STOPCD"),
   ("PREV_TRACK", "KEY_PREVIOUSSONG"),
   ("NEXT_TRACK", "KEY_NEXTSONG"),
   ("PRINT_SCREEN", "KEY_SYSRQ"),
   ("SCROLL_LOCK", "KEY_SCROLLLOCK"),
   ("PAUSE", "KEY_PAUSE"),
   ("A", "KEY_A"),
   ("B", "KEY_B"),
   ("C", "KEY_C"),
   ("D", "KEY_D"),
   ("E", "KEY_E"),
   ("F", "KEY_F"),
   ("G", "KEY_G"),
   ("H", "KEY_H"),
   ("I", "KEY_I"),
   ("J", "KEY_J"),
   ("K", "KEY_K"),
   ("L", "KEY_L"),
   ("M", "KEY_M"),
   ("N", "KEY_N"),
   ("O", "KEY_O"),
   ("P", "KEY_P"),
   ("Q", "KEY_Q"),
   ("R", "KEY_R"),
   ("S", "KEY_S"),
   ("T", "KEY_T"),
   ("U", "KEY_U"),
   ("V", "KEY_V"),
   ("W", "KEY_W"),
   ("X", "KEY_X"),
   ("Y", "KEY_Y"),
   ("Z", "KEY_Z"),
   ("0", "KEY_0"),
   ("1", "KEY_1"),
   ("2", "KEY_2"),
   ("3", "KEY_3"),
   ("4", "KEY_4"),
   ("5", "KEY_5"),
   ("6", "KEY_6"),
   ("7", "KEY_7"),
   ("8", "KEY_8"),
   ("9", "KEY_9"),
   ("NUM_0", "KEY_KP0"),
   ("NUM_1", "KEY_KP1"),
   ("NUM_2", "KEY_KP2"),
   ("NUM_3", "KEY_KP3"),
   ("NUM_4", "KEY_KP4"),
   ("NUM_5", "KEY_KP5"),
   ("NUM_6", "KEY_KP6"),
   ("NUM_7", "KEY_KP7"),
   ("NUM_8", "KEY_KP8"),
   ("NUM_9", "KEY_KP9"),
   ("NUM_ENTER", "KEY_KPENTER"),
   ("NUM_PLUS", "KEY_KPPLUS"),
   ("NUM_MINUS", "KEY_KPMINUS"),
   ("NUM_MULT", "KEY_KPASTERISK"),
   ("NUM_DIV", "KEY_KPSLASH"),
   ("NUM_DOT", "KEY_KPDOT"),
   ("NUM_LOCK", "KEY_NUMLOCK"),
   ("MINUS", "KEY_MINUS"),
   ("EQUAL", "KEY_EQUAL"),
   ("LBRACKET", "KEY_LEFTBRACE"),
   ("RBRACKET", "KEY_RIGHTBRACE"),
   ("SEMICOLON", "KEY_SEMICOLON"),
   ("APOSTROPHE", "KEY_APOSTROPHE"),
   ("GRAVE", "KEY_GRAVE"),
   ("BACKSLASH", "KEY_BACKSLASH"),
   ("COMMA", "KEY_COMMA"),
   ("DOT", "KEY_DOT"),
   ("SLASH", "KEY_SLASH"),
   ("BTN_LEFT", "BTN_LEFT"),
   ("BTN_RIGHT", "BTN_RIGHT"),
   ("BTN_MIDDLE", "BTN_MIDDLE"),
   ("BTN_SIDE", "BTN_SIDE"),
   ("BTN_EXTRA", "BTN_EXTRA"),
   ("BTN_FORWARD", "BTN_FORWARD"),
   ("BTN_BACK", "BTN_BACK"),
   ("BTN_TASK", "BTN_TASK"),
   ("KEY_LEFTCTRL", "KEY_LEFTCTRL"),
   ("KEY_RIGHTCTRL", "KEY_RIGHTCTRL"),
   ("KEY_LEFTSHIFT", "KEY_LEFTSHIFT"),
   ("KEY_RIGHTSHIFT", "KEY_RIGHTSHIFT"),
   ("KEY_LEFTALT", "KEY_LEFTALT"),
   ("KEY_RIGHTALT", "KEY_RIGHTALT"),
   ("KEY_LEFTMETA", "KEY_LEFTMETA"),
   ("KEY_RIGHTMETA", "KEY_RIGHTMETA"),
   ("KEY_ESC", "KEY_ESC"),
   ("KEY_TAB", "KEY_TAB"),
   ("KEY_CAPSLOCK", "KEY_CAPSLOCK"),
   ("KEY_ENTER", "KEY_ENTER"),
   ("KEY_SPACE", "KEY_SPACE"),
   ("KEY_BACKSPACE", "KEY_BACKSPACE"),
   ("KEY_DELETE", "KEY_DELETE"),
   ("KEY_INSERT", "KEY_INSERT"),
   ("KEY_HOME", "KEY_HOME"),
   ("KEY_END", "KEY_END"),
   ("KEY_PAGEUP", "KEY_PAGEUP"),
   ("KEY_PAGEDOWN", "KEY_PAGEDOWN"),
   ("KEY_UP", "KEY_UP"),
   ("KEY_DOWN", "KEY_DOWN"),
   ("KEY_LEFT", "KEY_LEFT"),
   ("KEY_RIGHT", "KEY_RIGHT"),
   ("KEY_F1", "KEY_F1"),
   ("KEY_F2", "KEY_F2"),
   ("KEY_F3", "KEY_F3"),
   ("KEY_F4", "KEY_F4"),
   ("KEY_F5", "KEY_F5"),
   ("KEY_F6", "KEY_F6"),
   ("KEY_F7", "KEY_F7"),
   ("KEY_F8", "KEY_F8"),
   ("KEY_F9", "KEY_F9"),
   ("KEY_F10", "KEY_F10"),
   ("KEY_F11", "KEY_F11"),
   ("KEY_F12", "KEY_F12"),
   ("KEY_F13", "KEY_F13"),
   ("KEY_F14", "KEY_F14"),
   ("KEY_F15", "KEY_F15"),
   ("KEY_F16", "KEY_F16"),
   ("KEY_F17", "KEY_F17"),
   ("KEY_F18", "KEY_F18"),
   ("KEY_F19", "KEY_F19"),
   ("KEY_F20", "KEY_F20"),
   ("KEY_F21", "KEY_F21"),
   ("KEY_F22", "KEY_F22"),
   ("KEY_F23", "KEY_F23"),
   ("KEY_F24", "KEY_F24"),
   ("KEY_MUTE", "KEY_MUTE"),
   ("KEY_VOLUMEDOWN", "KEY_VOLUMEDOWN"),
   ("KEY_VOLUMEUP", "KEY_VOLUMEUP"),
   ("KEY_PLAYPAUSE", "KEY_PLAYPAUSE"),
   ("KEY_STOPCD", "KEY_STOPCD"),
   ("KEY_PREVIOUSSONG", "KEY_PREVIOUSSONG"),
   ("KEY_NEXTSONG", "KEY_NEXTSONG"),
   ("KEY_SYSRQ", "KEY_SYSRQ"),
   ("KEY_SCROLLLOCK", "KEY_SCROLLLOCK"),
   ("KEY_PAUSE", "KEY_PAUSE"),
   ("KEY_A", "KEY_A"),
   ("KEY_B", "KEY_B"),
   ("KEY_C", "KEY_C"),
   ("KEY_D", "KEY_D"),
   ("KEY_E", "KEY_E"),
   ("KEY_F", "KEY_F"),
   ("KEY_G", "KEY_G"),
   ("KEY_H", "KEY_H"),
   ("KEY_I", "KEY_I"),
   ("KEY_J", "KEY_J"),
   ("KEY_K", "KEY_K"),
   ("KEY_L", "KEY_L")]

/-- Intermediate fold value (see the `..._computes` theorems). -/
def SCHEMA_TO_EVDEV_ident_104 : List (String × String) :=
  [("MOUSE_LEFT", "BTN_LEFT"),
   ("MOUSE_RIGHT", "BTN_RIGHT"),
   ("MOUSE_MIDDLE", "BTN_MIDDLE"),
   ("MOUSE_SIDE", "BTN_SIDE"),
   ("MOUSE_EXTRA", "BTN_EXTRA"),
   ("MOUSE_FORWARD", "BTN_FORWARD"),
   ("MOUSE_BACK", "BTN_BACK"),
   ("MOUSE_TASK", "BTN_TASK"),
   ("CTRL", "KEY_LEFTCTRL"),
   ("CTRL_R", "KEY_RIGHTCTRL"),
   ("SHIFT", "KEY_LEFTSHIFT"),
   ("SHIFT_R", "KEY_RIGHTSHIFT"),
   ("ALT", "KEY_LEFTALT"),
   ("ALT_R", "KEY_RIGHTALT"),
   ("META", "KEY_LEFTMETA"),
   ("META_R", "KEY_RIGHTMETA"),
   ("ESC", "KEY_ESC"),
   ("TAB", "KEY_TAB"),
   ("CAPS", "KEY_CAPSLOCK"),
   ("ENTER", "KEY_ENTER"),
   ("SPACE", "KEY_SPACE"),
   ("BACKSPACE", "KEY_BACKSPACE"),
   ("DELETE", "KEY_DELETE"),
   ("INSERT", "KEY_INSERT"),
   ("HOME", "KEY_HOME"),
   ("END", "KEY_END"),
   ("PAGEUP", "KEY_PAGEUP"),
   ("PAGEDOWN", "KEY_PAGEDOWN"),
   ("UP", "KEY_UP"),
   ("DOWN", "KEY_DOWN"),
   ("LEFT", "KEY_LEFT"),
   ("RIGHT", "KEY_RIGHT"),
   ("F1", "KEY_F1"),
   ("F2", "KEY_F2"),
   ("F3", "KEY_F3"),
   ("F4", "KEY_F4"),
   ("F5", "KEY_F5"),
   ("F6", "KEY_F6"),
   ("F7", "KEY_F7"),
   ("F8", "KEY_F8"),
   ("F9", "KEY_F9"),
   ("F10", "KEY_F10"),
   ("F11", "KEY_F11"),
   ("F12", "KEY_F12"),
   ("F13", "KEY_F13"),
   ("F14", "KEY_F14"),
   ("F15", "KEY_F15"),
   ("F16", "KEY_F16"),
   ("F17", "KEY_F17"),
   ("F18", "KEY_F18"),
   ("F19", "KEY_F19"),
   ("F20", "KEY_F20"),
   ("F21", "KEY_F21"),
   ("F22", "KEY_F22"),
   ("F23", "KEY_F23"),
   ("F24", "KEY_F24"),
   ("MUTE", "KEY_MUTE"),
   ("VOL_DOWN", "KEY_VOLUMEDOWN"),
   ("VOL_UP", "KEY_VOLUMEUP"),
   ("PLAY_PAUSE", "KEY_PLAYPAUSE"),
   ("STOP", "KEY_STOPCD"),
   ("PREV_TRACK", "KEY_PREVIOUSSONG"),
   ("NEXT_TRACK", "KEY_NEXTSONG"),
   ("PRINT_SCREEN", "KEY_SYSRQ"),
   ("SCROLL_LOCK", "KEY_SCROLLLOCK"),
   ("PAUSE", "KEY_PAUSE"),
   ("A", "KEY_A"),
   ("B", "KEY_B"),
   ("C", "KEY_C"),
   ("D", "KEY_D"),
   ("E", "KEY_E"),
   ("F", "KEY_F"),
   ("G", "KEY_G"),
   ("H", "KEY_H"),
   ("I", "KEY_I"),
   ("J", "KEY_J"),
   ("K", "KEY_K"),
   ("L", "KEY_L"),
   ("M", "KEY_M"),
   ("N", "KEY_N"),
   ("O", "KEY_O"),
   ("P", "KEY_P"),
   ("Q", "KEY_Q"),
   ("R", "KEY_R"),
   ("S", "KEY_S"),
   ("T", "KEY_T"),
   ("U", "KEY_U"),
   ("V", "KEY_V"),
   ("W", "KEY_W"),
   ("X", "KEY_X"),
   ("Y", "KEY_Y"),
   ("Z", "KEY_Z"),
   ("0", "KEY_0"),
   ("1", "KEY_1"),
   ("2", "KEY_2"),
   ("3", "KEY_3"),
   ("4", "KEY_4"),
   ("5", "KEY_5"),
   ("6", "KEY_6"),
   ("7", "KEY_7"),
   ("8", "KEY_8"),
   ("9", "KEY_9"),
   ("NUM_0", "KEY_KP0"),
   ("NUM_1", "KEY_KP1"),
   ("NUM_2", "KEY_KP2"),
   ("NUM_3", "KEY_KP3"),
   ("NUM_4", "KEY_KP4"),
   ("NUM_5", "KEY_KP5"),
   ("NUM_6", "KEY_KP6"),
   ("NUM_7", "KEY_KP7"),
   ("NUM_8", "KEY_KP8"),
   ("NUM_9", "KEY_KP9"),
   ("NUM_ENTER", "KEY_KPENTER"),
   ("NUM_PLUS", "KEY_KPPLUS"),
   ("NUM_MINUS", "KEY_KPMINUS"),
   ("NUM_MULT", "KEY_KPASTERISK"),
   ("NUM_DIV", "KEY_KPSLASH"),
   ("NUM_DOT", "KEY_KPDOT"),
   ("NUM_LOCK", "KEY_NUMLOCK"),
   ("MINUS", "KEY_MINUS"),
   ("EQUAL", "KEY_EQUAL"),
   ("LBRACKET", "KEY_LEFTBRACE"),
   ("RBRACKET", "KEY_RIGHTBRACE"),
   ("SEMICOLON", "KEY_SEMICOLON"),
   ("APOSTROPHE", "KEY_APOSTROPHE"),
   ("GRAVE", "KEY_GRAVE"),
   ("BACKSLASH", "KEY_BACKSLASH"),
   ("COMMA", "KEY_COMMA"),
   ("DOT", "KEY_DOT"),
   ("SLASH", "KEY_SLASH"),
   ("BTN_LEFT", "BTN_LEFT"),
   ("BTN_RIGHT", "BTN_RIGHT"),
   ("BTN_MIDDLE", "BTN_MIDDLE"),
   ("BTN_SIDE", "BTN_SIDE"),
   ("BTN_EXTRA", "BTN_EXTRA"),
   ("BTN_FORWARD", "BTN_FORWARD"),
   ("BTN_BACK", "BTN_BACK"),
   ("BTN_TASK", "BTN_TASK"),
   ("KEY_LEFTCTRL", "KEY_LEFTCTRL"),
   ("KEY_RIGHTCTRL", "KEY_RIGHTCTRL"),
   ("KEY_LEFTSHIFT", "KEY_LEFTSHIFT"),
   ("KEY_RIGHTSHIFT", "KEY_RIGHTSHIFT"),
   ("KEY_LEFTALT", "KEY_LEFTALT"),
   ("KEY_RIGHTALT", "KEY_RIGHTALT"),
   ("KEY_LEFTMETA", "KEY_LEFTMETA"),
   ("KEY_RIGHTMETA", "KEY_RIGHTMETA"),
   ("KEY_ESC", "KEY_ESC"),
   ("KEY_TAB", "KEY_TAB"),
   ("KEY_CAPSLOCK", "KEY_CAPSLOCK"),
   ("KEY_ENTER", "KEY_ENTER"),
   ("KEY_SPACE", "KEY_SPACE"),
   ("KEY_BACKSPACE", "KEY_BACKSPACE"),
   ("KEY_DELETE", "KEY_DELETE"),
   ("KEY_INSERT", "KEY_INSERT"),
   ("KEY_HOME", "KEY_HOME"),
   ("KEY_END", "KEY_END"),
   ("KEY_PAGEUP", "KEY_PAGEUP"),
   ("KEY_PAGEDOWN", "KEY_PAGEDOWN"),
   ("KEY_UP", "KEY_UP"),
   ("KEY_DOWN", "KEY_DOWN"),
   ("KEY_LEFT", "KEY_LEFT"),
   ("KEY_RIGHT", "KEY_RIGHT"),
   ("KEY_F1", "KEY_F1"),
   ("KEY_F2", "KEY_F2"),
   ("KEY_F3", "KEY_F3"),
   ("KEY_F4", "KEY_F4"),
   ("KEY_F5", "KEY_F5"),
   ("KEY_F6", "KEY_F6"),
   ("KEY_F7", "KEY_F7"),
   ("KEY_F8", "KEY_F8"),
   ("KEY_F9", "KEY_F9"),
   ("KEY_F10", "KEY_F10"),
   ("KEY_F11", "KEY_F11"),
   ("KEY_F12", "KEY_F12"),
   ("KEY_F13", "KEY_F13"),
   ("KEY_F14", "KEY_F14"),
   ("KEY_F15", "KEY_F15"),
   ("KEY_F16", "KEY_F16"),
   ("KEY_F17", "KEY_F17"),
   ("KEY_F18", "KEY_F18"),
   ("KEY_F19", "KEY_F19"),
   ("KEY_F20", "KEY_F20"),
   ("KEY_F21", "KEY_F21"),
   ("KEY_F22", "KEY_F22"),
   ("KEY_F23", "KEY_F23"),
   ("KEY_F24", "KEY_F24"),
   ("KEY_MUTE", "KEY_MUTE"),
   ("KEY_VOLUMEDOWN", "KEY_VOLUMEDOWN"),
   ("KEY_VOLUMEUP", "KEY_VOLUMEUP"),
   ("KEY_PLAYPAUSE", "KEY_PLAYPAUSE"),
   ("KEY_STOPCD", "KEY_STOPCD"),
   ("KEY_PREVIOUSSONG", "KEY_PREVIOUSSONG"),
   ("KEY_NEXTSONG", "KEY_NEXTSONG"),
   ("KEY_SYSRQ", "KEY_SYSRQ"),
   ("KEY_SCROLLLOCK", "KEY_SCROLLLOCK"),
   ("KEY_PAUSE", "KEY_PAUSE"),
   ("KEY_A", "KEY_A"),
   ("KEY_B", "KEY_B"),
   ("KEY_C", "KEY_C"),
   ("KEY_D", "KEY_D"),
   ("KEY_E", "KEY_E"),
   ("KEY_F", "KEY_F"),
   ("KEY_G", "KEY_G"),
   ("KEY_H", "KEY_H"),
   ("KEY_I", "KEY_I"),
   ("KEY_J", "KEY_J"),
   ("KEY_K", "KEY_K"),
   ("KEY_L", "KEY_L"),
   ("KEY_M", "KEY_M"),
   ("KEY_N", "KEY_N"),
   ("KEY_O", "KEY_O"),
   ("KEY_P", "KEY_P"),
   ("KEY_Q", "KEY_Q"),
   ("KEY_R", "KEY_R"),
   ("KEY_S", "KEY_S"),
   ("KEY_T", "KEY_T"),
   ("KEY_U", "KEY_U"),
   ("KEY_V", "KEY_V"),
   ("KEY_W", "KEY_W"),
   ("KEY_X", "KEY_X"),
   ("KEY_Y", "KEY_Y"),
   ("KEY_Z", "KEY_Z"),
   ("KEY_0", "KEY_0"),
   ("KEY_1", "KEY_1"),
   ("KEY_2", "KEY_2"),
   ("KEY_3", "KEY_3"),
   ("KEY_4", "KEY_4"),
   ("KEY_5", "KEY_5"),
   ("KEY_6", "KEY_6"),
   ("KEY_7", "KEY_7"),
   ("KEY_8", "KEY_8"),
   ("KEY_9", "KEY_9"),
   ("KEY_KP0", "KEY_KP0"),
   ("KEY_KP1", "KEY_KP1")]

/-!
## Concrete fixtures

Profiles mirroring the fixtures of `src/tests/test_remap_engine.py`, used as
concrete inputs for witnesses and counterexamples.  Kernel codes:
`BTN_SIDE = 275`, `BTN_EXTRA = 276`, `KEY_A = 30`, `KEY_B = 48`,
`KEY_LEFTCTRL = 29`, `KEY_C = 46`.
-/

/-- A profile with one base-layer binding `BTN_SIDE → KEY [A]`. -/
def simpleKeyProfile : Profile :=
  { id := "test"
    name := "Test Profile"
    layers := [
      { id := "base"
        name := "Base Layer"
        bindings := [
          { input_code := "BTN_SIDE", action_type := ActionType.KEY,
            output_keys := ["A"] }] }] }

/-- A profile whose base layer maps both `BTN_SIDE` and `BTN_EXTRA` to `KEY [A]`. -/
def doubleAProfile : Profile :=
  { id := "test"
    name := "Double A Profile"
    layers := [
      { id := "base"
        name := "Base Layer"
        bindings := [
          { input_code := "BTN_SIDE", action_type := ActionType.KEY,
            output_keys := ["A"] },
          { input_code := "BTN_EXTRA", action_type := ActionType.KEY,
            output_keys := ["A"] }] }] }

/-- The Hypershift fixture: base `BTN_SIDE → KEY [A]`; shift layer held via
`BTN_EXTRA` with `BTN_SIDE → KEY [B]`. -/
def hypershiftProfile : Profile :=
  { id := "test"
    name := "Hypershift Profile"
    layers := [
      { id := "base"
        name := "Base Layer"
        bindings := [
          { input_code := "BTN_SIDE", action_type := ActionType.KEY,
            output_keys := ["A"] }] },
      { id := "shift"
        name := "Shift Layer"
        bindings := [
          { input_code := "BTN_SIDE", action_type := ActionType.KEY,
            output_keys := ["B"] }]
        hold_modifier_input_code := some "BTN_EXTRA" }] }

/-- A profile with two hold-modifier layers (`BTN_SIDE` holds `l1`,
`BTN_EXTRA` holds `l2`). -/
def twoModifierProfile : Profile :=
  { id := "test"
    name := "Two Modifier Profile"
    layers := [
      { id := "base", name := "Base Layer" },
      { id := "l1", name := "Layer One",
        hold_modifier_input_code := some "BTN_SIDE" },
      { id := "l2", name := "Layer Two",
        hold_modifier_input_code := some "BTN_EXTRA" }] }

/-- A profile with a chord binding `BTN_EXTRA → CHORD [CTRL, C]`. -/
def chordProfile : Profile :=
  { id := "test"
    name := "Chord Profile"
    layers := [
      { id := "base"
        name := "Base Layer"
        bindings := [
          { input_code := "BTN_EXTRA", action_type := ActionType.CHORD,
            output_keys := ["CTRL", "C"] }] }] }

/-- A profile whose only binding has an output key that resolves to no code. -/
def inertKeyProfile : Profile :=
  { id := "test"
    name := "Inert Profile"
    layers := [
      { id := "base"
        name := "Base Layer"
        bindings := [
          { input_code := "BTN_SIDE", action_type := ActionType.KEY,
            output_keys := ["NOT_A_KEY"] }] }] }

/-- A profile with an empty base layer. -/
def emptyProfile : Profile :=
  { id := "empty"
    name := "Empty Profile"
    layers := [{ id := "base", name := "Base Layer" }] }

/-- A recorder with the default configuration. -/
def defaultRecorderConfig : RecorderConfig := {}

/-- A recorder that merges but does not record delays. -/
def noDelayRecorderConfig : RecorderConfig := { record_delays := false }

/-- Recorded buffer events for the recorder witnesses: a quick `A` press
(down at 1.0 s), its release 50 ms later, and a slow release 200 ms later. -/
def recDownA : RecordedEvent :=
  { timestamp := 1, code := 30, value := 1, key_name := "A" }

/-- Release of `A` 50 ms after `recDownA`. -/
def recUpAFast : RecordedEvent :=
  { timestamp := 21 / 20, code := 30, value := 0, key_name := "A" }

/-- Release of `A` 200 ms after `recDownA`. -/
def recUpASlow : RecordedEvent :=
  { timestamp := 6 / 5, code := 30, value := 0, key_name := "A" }

/-!
## Theorems

First, the written-out lookup tables agree with the source-shaped
constructions they stand for.
-/

theorem EVDEV_TO_SCHEMA_computes : EVDEV_TO_SCHEMA_build = EVDEV_TO_SCHEMA := by rfl

set_option maxHeartbeats 1600000 in
theorem SCHEMA_TO_EVDEV_rev_computes :
    EVDEV_TO_SCHEMA.foldl schema_rev_insert [] = SCHEMA_TO_EVDEV_rev := by
  have h1 : (EVDEV_TO_SCHEMA.take 26).foldl schema_rev_insert [] = SCHEMA_TO_EVDEV_rev_26 := by rfl
  have h2 : ((EVDEV_TO_SCHEMA.drop 26).take 26).foldl schema_rev_insert SCHEMA_TO_EVDEV_rev_26 = SCHEMA_TO_EVDEV_rev_52 := by rfl
  have h3 : (((EVDEV_TO_SCHEMA.drop 26).drop 26).take 26).foldl schema_rev_insert SCHEMA_TO_EVDEV_rev_52 = SCHEMA_TO_EVDEV_rev_78 := by rfl
  have h4 : ((((EVDEV_TO_SCHEMA.drop 26).drop 26).drop 26).take 26).foldl schema_rev_insert SCHEMA_TO_EVDEV_rev_78 = SCHEMA_TO_EVDEV_rev_104 := by rfl
  have h5 : ((((EVDEV_TO_SCHEMA.drop 26).drop 26).drop 26).drop 26).foldl schema_rev_insert SCHEMA_TO_EVDEV_rev_104 = SCHEMA_TO_EVDEV_rev := by rfl
  rw [← List.take_append_drop 26 EVDEV_TO_SCHEMA, List.foldl_append, h1]
  rw [← List.take_append_drop 26 (EVDEV_TO_SCHEMA.drop 26), List.foldl_append, h2]
  rw [← List.take_append_drop 26 ((EVDEV_TO_SCHEMA.drop 26).drop 26), List.foldl_append, h3]
  rw [← List.take_append_drop 26 (((EVDEV_TO_SCHEMA.drop 26).drop 26).drop 26), List.foldl_append, h4]
  exact h5

set_option maxHeartbeats 1600000 in
theorem SCHEMA_TO_EVDEV_computes : SCHEMA_TO_EVDEV_build = SCHEMA_TO_EVDEV := by
  unfold SCHEMA_TO_EVDEV_build
  rw [SCHEMA_TO_EVDEV_rev_computes]
  have h1 : (EVDEV_TO_SCHEMA.take 26).foldl schema_ident_insert SCHEMA_TO_EVDEV_rev = SCHEMA_TO_EVDEV_ident_26 := by rfl
  have h2 : ((EVDEV_TO_SCHEMA.drop 26).take 26).foldl schema_ident_insert SCHEMA_TO_EVDEV_ident_26 = SCHEMA_TO_EVDEV_ident_52 := by rfl
  have h3 : (((EVDEV_TO_SCHEMA.drop 26).drop 26).take 26).foldl schema_ident_insert SCHEMA_TO_EVDEV_ident_52 = SCHEMA_TO_EVDEV_ident_78 := by rfl
  have h4 : ((((EVDEV_TO_SCHEMA.drop 26).drop 26).drop 26).take 26).foldl schema_ident_insert SCHEMA_TO_EVDEV_ident_78 = SCHEMA_TO_EVDEV_ident_104 := by rfl
  have h5 : ((((EVDEV_TO_SCHEMA.drop 26).drop 26).drop 26).drop 26).foldl schema_ident_insert SCHEMA_TO_EVDEV_ident_104 = SCHEMA_TO_EVDEV := by rfl
  rw [← List.take_append_drop 26 EVDEV_TO_SCHEMA, List.foldl_append, h1]
  rw [← List.take_append_drop 26 (EVDEV_TO_SCHEMA.drop 26), List.foldl_append, h2]
  rw [← List.take_append_drop 26 ((EVDEV_TO_SCHEMA.drop 26).drop 26), List.foldl_append, h3]
  rw [← List.take_append_drop 26 (((EVDEV_TO_SCHEMA.drop 26).drop 26).drop 26), List.foldl_append, h4]
  exact h5

set_option maxHeartbeats 1600000 in
theorem SCHEMA_TO_UINPUT_computes : SCHEMA_TO_UINPUT_build = SCHEMA_TO_UINPUT := by
  unfold SCHEMA_TO_UINPUT_build
  have h1 : (EVDEV_TO_SCHEMA.take 26).foldl uinput_insert [] = SCHEMA_TO_UINPUT_26 := by rfl
  have h2 : ((EVDEV_TO_SCHEMA.drop 26).take 26).foldl uinput_insert SCHEMA_TO_UINPUT_26 = SCHEMA_TO_UINPUT_52 := by rfl
  have h3 : (((EVDEV_TO_SCHEMA.drop 26).drop 26).take 26).foldl uinput_insert SCHEMA_TO_UINPUT_52 = SCHEMA_TO_UINPUT_78 := by rfl
  have h4 : ((((EVDEV_TO_SCHEMA.drop 26).drop 26).drop 26).take 26).foldl uinput_insert SCHEMA_TO_UINPUT_78 = SCHEMA_TO_UINPUT_104 := by rfl
  have h5 : ((((EVDEV_TO_SCHEMA.drop 26).drop 26).drop 26).drop 26).foldl uinput_insert SCHEMA_TO_UINPUT_104 = SCHEMA_TO_UINPUT := by rfl
  rw [← List.take_append_drop 26 EVDEV_TO_SCHEMA, List.foldl_append, h1]
  rw [← List.take_append_drop 26 (EVDEV_TO_SCHEMA.drop 26), List.foldl_append, h2]
  rw [← List.take_append_drop 26 ((EVDEV_TO_SCHEMA.drop 26).drop 26), List.foldl_append, h3]
  rw [← List.take_append_drop 26 (((EVDEV_TO_SCHEMA.drop 26).drop 26).drop 26), List.foldl_append, h4]
  exact h5



/-- C1.  The claim states that the release of a physical code is handled by
the binding that fired on its most recent unreleased press, even across a
layer change.  The code instead resolves the binding again at release time in
the then-active layer: with the Hypershift profile, pressing `BTN_SIDE` (275)
emits down of `KEY_A` (30), activating the shift layer and then releasing
`BTN_SIDE` emits up of `KEY_B` (48) — the shift binding — and never up of
`KEY_A`. -/
theorem release_uses_release_time_layer :
    (runEvents (RemapEngine.new hypershiftProfile)
      [⟨EV_KEY, 275, 1⟩, ⟨EV_KEY, 276, 1⟩, ⟨EV_KEY, 275, 0⟩]).emissions
      = [(30, 1), (48, 0)] := by decide

/-- C2.  The claim states the engine never emits a down for an output code it
already holds nor an up for one it does not hold.  The code tracks no held
outputs: with both `BTN_SIDE` (275) and `BTN_EXTRA` (276) bound to `KEY [A]`,
pressing both emits down of `KEY_A` (30) twice, and a lone release of
`BTN_SIDE` emits up of `KEY_A` which was never held. -/
theorem held_outputs_not_tracked :
    (runEvents (RemapEngine.new doubleAProfile)
      [⟨EV_KEY, 275, 1⟩, ⟨EV_KEY, 276, 1⟩]).emissions = [(30, 1), (30, 1)] ∧
    (runEvents (RemapEngine.new doubleAProfile)
      [⟨EV_KEY, 275, 0⟩]).emissions = [(30, 0)] := by decide

/-- C3.  The claim states `reload_profile` emits an up for every currently
held output code.  The code instead emits ups for the physically pressed
input codes: after pressing `BTN_SIDE` (275), which emitted down of `KEY_A`
(30), reloading emits up of 275 — a code the engine never emitted down for —
and never releases 30.  Only the `active_layer = "base"` part holds. -/
theorem reload_releases_input_codes :
    (process_event (RemapEngine.new simpleKeyProfile) ⟨EV_KEY, 275, 1⟩).emissions
      = [(30, 1)] ∧
    (reload_profile
      (process_event (RemapEngine.new simpleKeyProfile) ⟨EV_KEY, 275, 1⟩).engine
      emptyProfile).2 = [(275, 0)] ∧
    (reload_profile
      (process_event (RemapEngine.new simpleKeyProfile) ⟨EV_KEY, 275, 1⟩).engine
      emptyProfile).1.state.active_layer = "base" := by decide

/-- C6.  The claim states a layer-modifier release resets `active_layer` only
when the released code is the recorded held modifier.  The code records no
held modifier and resets unconditionally: holding the `l1` modifier
`BTN_SIDE` (275) and then receiving a release of the other modifier
`BTN_EXTRA` (276) drops `active_layer` from `"l1"` back to `"base"`. -/
theorem modifier_release_unguarded :
    (runEvents (RemapEngine.new twoModifierProfile)
      [⟨EV_KEY, 275, 1⟩]).engine.state.active_layer = "l1" ∧
    (runEvents (RemapEngine.new twoModifierProfile)
      [⟨EV_KEY, 275, 1⟩, ⟨EV_KEY, 276, 0⟩]).engine.state.active_layer = "base" := by
  decide

/-!
### Helper lemmas
-/

/-- A value `dictFind?` returns satisfies any property all table values satisfy. -/
theorem dictFind?_forall {α β : Type} [DecidableEq α] {P : β → Prop} :
    ∀ (d : List (α × β)), (∀ kv ∈ d, P kv.2) → ∀ k v, dictFind? d k = some v → P v := by
  intro d
  induction d with
  | nil => intro _ k v h; simp [dictFind?] at h
  | cons kv rest ih =>
    intro hall k v h
    obtain ⟨k', v'⟩ := kv
    by_cases hk : k' = k
    · simp only [dictFind?, if_pos hk, Option.some.injEq] at h
      subst h
      exact hall (k', v') (List.mem_cons_self _ _)
    · simp only [dictFind?, if_neg hk] at h
      exact ih (fun kv hm => hall kv (List.mem_cons_of_mem _ hm)) k v h

/-- No entry of the written-out `SCHEMA_TO_UINPUT` carries code `0`. -/
theorem SCHEMA_TO_UINPUT_values_pos : ∀ kv ∈ SCHEMA_TO_UINPUT, kv.2 ≠ 0 := by decide

/-- No entry of the modelled `ecodes` namespace carries code `0`. -/
theorem ecodes_values_pos : ∀ kv ∈ ecodes_table, kv.2 ≠ 0 := by decide

/-- `schema_to_evdev_code` never returns the code `0`, so the `if code:`
truthiness tests in the engine coincide with `is not None` tests. -/
theorem schema_code_ne_zero {s : String} {c : Nat}
    (h : schema_to_evdev_code s = some c) : c ≠ 0 := by
  unfold schema_to_evdev_code at h
  cases h1 : dictFind? SCHEMA_TO_UINPUT s with
  | some c' =>
    rw [h1] at h
    injection h with hcc
    subst hcc
    exact @dictFind?_forall _ _ _ (fun x => x ≠ 0)
      SCHEMA_TO_UINPUT SCHEMA_TO_UINPUT_values_pos s _ h1
  | none =>
    rw [h1] at h
    dsimp only at h
    cases h2 : getattr_ecodes ((dictFind? SCHEMA_TO_EVDEV s).getD s) with
    | some c' =>
      rw [h2] at h
      injection h with hcc
      subst hcc
      exact @dictFind?_forall _ _ _ (fun x => x ≠ 0) ecodes_table ecodes_values_pos _ _ h2
    | none =>
      rw [h2] at h
      dsimp only at h
      cases h3 : getattr_ecodes ("KEY_" ++ s) with
      | some c' =>
        rw [h3] at h
        injection h with hcc
        subst hcc
        exact @dictFind?_forall _ _ _ (fun x => x ≠ 0) ecodes_table ecodes_values_pos _ _ h3
      | none =>
        rw [h3] at h
        dsimp only at h
        exact @dictFind?_forall _ _ _ (fun x => x ≠ 0) ecodes_table ecodes_values_pos _ _ h

/-- Folding chord emissions over fully resolved keys yields one write per key
in order. -/
theorem chord_foldl_resolved (v : Nat) :
    ∀ (keys : List String) (cs : List Nat) (init : List Emission),
      resolveAll keys = some cs →
      keys.foldl (fun acc k => acc ++ emitIfTruthy k v) init
        = init ++ cs.map (fun c => (c, v)) := by
  intro keys
  induction keys with
  | nil =>
    intro cs init h
    simp only [resolveAll] at h
    cases h
    simp
  | cons k ks ih =>
    intro cs init h
    unfold resolveAll at h
    cases hk : schema_to_evdev_code k with
    | none => rw [hk] at h; simp at h
    | some c =>
      rw [hk] at h
      cases hks : resolveAll ks with
      | none => rw [hks] at h; simp at h
      | some cs' =>
        rw [hks] at h
        simp only [Option.some.injEq] at h
        subst h
        have hc := schema_code_ne_zero hk
        simp only [List.foldl_cons]
        rw [show emitIfTruthy k v = [(c, v)] by simp [emitIfTruthy, hk, hc]]
        rw [ih cs' (init ++ [(c, v)]) hks]
        simp

/-- Folding chord emissions over keys none of which resolve emits nothing. -/
theorem chord_foldl_none (v : Nat) :
    ∀ (keys : List String) (init : List Emission),
      (∀ k ∈ keys, schema_to_evdev_code k = none) →
      keys.foldl (fun acc k => acc ++ emitIfTruthy k v) init = init := by
  intro keys
  induction keys with
  | nil => intro init _; rfl
  | cons k ks ih =>
    intro init hall
    have hk : schema_to_evdev_code k = none := hall k (List.mem_cons_self _ _)
    simp only [List.foldl_cons]
    rw [show emitIfTruthy k v = [] by simp [emitIfTruthy, hk]]
    rw [List.append_nil]
    exact ih init (fun k' hm => hall k' (List.mem_cons_of_mem _ hm))

/-- `resolveAll` over a snoc. -/
theorem resolveAll_snoc :
    ∀ (l : List String) (k : String) (cs : List Nat) (c : Nat),
      resolveAll l = some cs → schema_to_evdev_code k = some c →
      resolveAll (l ++ [k]) = some (cs ++ [c]) := by
  intro l
  induction l with
  | nil =>
    intro k cs c hl hk
    simp only [resolveAll] at hl
    cases hl
    simp [resolveAll, hk]
  | cons x xs ih =>
    intro k cs c hl hk
    unfold resolveAll at hl
    cases hx : schema_to_evdev_code x with
    | none => rw [hx] at hl; simp at hl
    | some cx =>
      rw [hx] at hl
      cases hxs : resolveAll xs with
      | none => rw [hxs] at hl; simp at hl
      | some csx =>
        rw [hxs] at hl
        simp only [Option.some.injEq] at hl
        subst hl
        have := ih k csx c hxs hk
        simp only [List.cons_append]
        unfold resolveAll
        rw [hx, this]

/-- `resolveAll` commutes with `reverse`. -/
theorem resolveAll_reverse :
    ∀ {keys : List String} {cs : List Nat},
      resolveAll keys = some cs → resolveAll keys.reverse = some cs.reverse := by
  intro keys
  induction keys with
  | nil =>
    intro cs h
    simp only [resolveAll] at h
    cases h
    simp [resolveAll]
  | cons k ks ih =>
    intro cs h
    unfold resolveAll at h
    cases hk : schema_to_evdev_code k with
    | none => rw [hk] at h; simp at h
    | some c =>
      rw [hk] at h
      cases hks : resolveAll ks with
      | none => rw [hks] at h; simp at h
      | some cs' =>
        rw [hks] at h
        simp only [Option.some.injEq] at h
        subst h
        simp only [List.reverse_cons]
        exact resolveAll_snoc ks.reverse k cs'.reverse c (ih hks) hk

/-- `process_event` on a bound key-down: state gains the pressed code and the
emissions are those of `_handle_binding_down`. -/
theorem process_event_bound_down (eng : RemapEngine) (c : Nat) (b : Binding)
    (hmod : dictFind? eng.layer_modifiers c = none)
    (hb : get_binding eng c = some b) :
    process_event eng ⟨EV_KEY, c, 1⟩
      = ⟨{ eng with state := { eng.state with pressed := setAdd eng.state.pressed c } },
         handle_binding_down
           { eng with state := { eng.state with pressed := setAdd eng.state.pressed c } } b,
         true⟩ := by
  unfold process_event
  simp [hmod, hb]

/-- `process_event` on a bound key-up: state drops the pressed code and the
emissions are those of `_handle_binding_up`. -/
theorem process_event_bound_up (eng : RemapEngine) (c : Nat) (b : Binding)
    (hmod : dictFind? eng.layer_modifiers c = none)
    (hb : get_binding eng c = some b) :
    process_event eng ⟨EV_KEY, c, 0⟩
      = ⟨{ eng with state := { eng.state with pressed := setDiscard eng.state.pressed c } },
         handle_binding_up b, true⟩ := by
  unfold process_event
  simp [hmod, hb]

/-!
### Claim theorems
-/

/-- Claim C4 (chord order): for a dispatched CHORD binding whose output keys
resolve to codes `cs = [k1..kn]`, handling its press emits `down(k1) ..
down(kn)` in order and handling its release emits `up(kn) .. up(k1)` in
reverse order. -/
theorem chord_press_release_order (eng : RemapEngine) (c : Nat) (b : Binding)
    (cs : List Nat)
    (hmod : dictFind? eng.layer_modifiers c = none)
    (hb : get_binding eng c = some b)
    (hact : b.action_type = ActionType.CHORD)
    (hres : resolveAll b.output_keys = some cs) :
    (process_event eng ⟨EV_KEY, c, 1⟩).emissions = cs.map (fun k => (k, 1)) ∧
    (process_event eng ⟨EV_KEY, c, 0⟩).emissions = cs.reverse.map (fun k => (k, 0)) := by
  rw [process_event_bound_down eng c b hmod hb, process_event_bound_up eng c b hmod hb]
  constructor
  · show handle_binding_down _ b = _
    unfold handle_binding_down
    rw [hact]
    simpa using chord_foldl_resolved 1 b.output_keys cs [] hres
  · show handle_binding_up b = _
    unfold handle_binding_up
    rw [hact]
    simpa using chord_foldl_resolved 0 b.output_keys.reverse cs.reverse []
      (resolveAll_reverse hres)

/-- Witness for C4: in `chordProfile`, pressing `BTN_EXTRA` (276) emits
`down(KEY_LEFTCTRL) down(KEY_C)` and releasing emits `up(KEY_C)
up(KEY_LEFTCTRL)`. -/
theorem chord_press_release_order_witness :
    (process_event (RemapEngine.new chordProfile) ⟨EV_KEY, 276, 1⟩).emissions
      = [(29, 1), (46, 1)] ∧
    (process_event (RemapEngine.new chordProfile) ⟨EV_KEY, 276, 0⟩).emissions
      = [(46, 0), (29, 0)] := by
  have h := chord_press_release_order (RemapEngine.new chordProfile) 276
    { input_code := "BTN_EXTRA", action_type := ActionType.CHORD,
      output_keys := ["CTRL", "C"] }
    [29, 46] (by decide) (by decide) rfl (by decide)
  exact ⟨h.1.trans (by decide), h.2.trans (by decide)⟩

/-- Claim C5 (layer modifier transparency): a key event whose code is in
`layer_modifiers` is always consumed (`handled = true`) and causes no sink
emission for that code, whatever its value and whether or not the code is
also bound in some layer. -/
theorem layer_modifier_transparent (eng : RemapEngine) (ev : InputEvent)
    (layer_id : String)
    (htype : ev.type = EV_KEY)
    (hmod : dictFind? eng.layer_modifiers ev.code = some layer_id) :
    (process_event eng ev).handled = true ∧
    ∀ em ∈ (process_event eng ev).emissions, em.1 ≠ ev.code := by
  have hkey : (process_event eng ev).emissions = [] ∧
      (process_event eng ev).handled = true := by
    unfold process_event
    rw [if_neg (by simp [htype])]
    dsimp only
    rw [hmod]
    dsimp only
    split_ifs <;> exact ⟨rfl, rfl⟩
  refine ⟨hkey.2, ?_⟩
  rw [hkey.1]
  intro em hm
  cases hm

/-- Witness for C5: in `hypershiftProfile` an autorepeat (value 2) of the
layer modifier `BTN_EXTRA` (276) is consumed and emits nothing for 276. -/
theorem layer_modifier_transparent_witness :
    (process_event (RemapEngine.new hypershiftProfile) ⟨EV_KEY, 276, 2⟩).handled
      = true ∧
    ∀ em ∈ (process_event (RemapEngine.new hypershiftProfile)
      ⟨EV_KEY, 276, 2⟩).emissions, em.1 ≠ 276 :=
  layer_modifier_transparent (RemapEngine.new hypershiftProfile)
    ⟨EV_KEY, 276, 2⟩ "shift" rfl (by decide)

/-- `_handle_binding_down` of an inert binding emits nothing. -/
theorem handle_binding_down_inert (eng : RemapEngine) (b : Binding)
    (hinert :
      (b.action_type = ActionType.KEY ∧
        ∀ k ∈ b.output_keys, schema_to_evdev_code k = none) ∨
      (b.action_type = ActionType.CHORD ∧
        ∀ k ∈ b.output_keys, schema_to_evdev_code k = none) ∨
      (b.action_type = ActionType.PASSTHROUGH ∧
        schema_to_evdev_code b.input_code = none)) :
    handle_binding_down eng b = [] := by
  unfold handle_binding_down
  rcases hinert with ⟨ha, hkeys⟩ | ⟨ha, hkeys⟩ | ⟨ha, hin⟩ <;> rw [ha]
  · cases hks : b.output_keys with
    | nil => rfl
    | cons k rest =>
      have hk : schema_to_evdev_code k = none := hkeys k (by rw [hks]; exact List.mem_cons_self _ _)
      simp [emitIfTruthy, hk]
  · exact chord_foldl_none 1 b.output_keys [] hkeys
  · simp [emitIfTruthy, hin]

/-- `_handle_binding_up` of an inert binding emits nothing. -/
theorem handle_binding_up_inert (b : Binding)
    (hinert :
      (b.action_type = ActionType.KEY ∧
        ∀ k ∈ b.output_keys, schema_to_evdev_code k = none) ∨
      (b.action_type = ActionType.CHORD ∧
        ∀ k ∈ b.output_keys, schema_to_evdev_code k = none) ∨
      (b.action_type = ActionType.PASSTHROUGH ∧
        schema_to_evdev_code b.input_code = none)) :
    handle_binding_up b = [] := by
  unfold handle_binding_up
  rcases hinert with ⟨ha, hkeys⟩ | ⟨ha, hkeys⟩ | ⟨ha, hin⟩ <;> rw [ha]
  · cases hks : b.output_keys with
    | nil => rfl
    | cons k rest =>
      have hk : schema_to_evdev_code k = none := hkeys k (by rw [hks]; exact List.mem_cons_self _ _)
      simp [emitIfTruthy, hk]
  · exact chord_foldl_none 0 b.output_keys.reverse []
      (fun k hm => hkeys k (List.mem_reverse.mp hm))
  · simp [emitIfTruthy, hin]

/-- Claim C9 (consumed-but-inert bindings): a press or release whose resolved
binding is KEY or CHORD with no resolvable output key, or PASSTHROUGH with an
unresolvable input code, is consumed (`handled = true`) with no sink
emission. -/
theorem inert_binding_consumed (eng : RemapEngine) (c v : Nat) (b : Binding)
    (hv : v = 0 ∨ v = 1)
    (hb : get_binding eng c = some b)
    (hinert :
      (b.action_type = ActionType.KEY ∧
        ∀ k ∈ b.output_keys, schema_to_evdev_code k = none) ∨
      (b.action_type = ActionType.CHORD ∧
        ∀ k ∈ b.output_keys, schema_to_evdev_code k = none) ∨
      (b.action_type = ActionType.PASSTHROUGH ∧
        schema_to_evdev_code b.input_code = none)) :
    (process_event eng ⟨EV_KEY, c, v⟩).handled = true ∧
    (process_event eng ⟨EV_KEY, c, v⟩).emissions = [] := by
  cases hml : dictFind? eng.layer_modifiers c with
  | some lid =>
    rcases hv with h | h <;> subst h <;>
      · unfold process_event
        rw [if_neg (by simp)]
        dsimp only
        rw [hml]
        dsimp only
        split_ifs <;> exact ⟨rfl, rfl⟩
  | none =>
    rcases hv with h | h <;> subst h
    · rw [process_event_bound_up eng c b hml hb]
      exact ⟨rfl, handle_binding_up_inert b hinert⟩
    · rw [process_event_bound_down eng c b hml hb]
      exact ⟨rfl, handle_binding_down_inert _ b hinert⟩

/-- Witness for C9: in `inertKeyProfile` the binding of `BTN_SIDE` (275) maps
to the unresolvable name `NOT_A_KEY`; its press is consumed and emits
nothing. -/
theorem inert_binding_consumed_witness :
    (process_event (RemapEngine.new inertKeyProfile) ⟨EV_KEY, 275, 1⟩).handled
      = true ∧
    (process_event (RemapEngine.new inertKeyProfile) ⟨EV_KEY, 275, 1⟩).emissions
      = [] :=
  inert_binding_consumed (RemapEngine.new inertKeyProfile) 275 1
    { input_code := "BTN_SIDE", action_type := ActionType.KEY,
      output_keys := ["NOT_A_KEY"] }
    (Or.inr rfl) (by decide) (Or.inl ⟨rfl, by decide⟩)

/-- Claim C10 (determinism): two engines initialized from the same profile
produce, over the same event sequence, the same emissions, the same
`process_event` return values and the same final key state. -/
theorem engine_runs_deterministic (p : Profile) (events : List InputEvent)
    (e1 e2 : RemapEngine)
    (h1 : e1 = RemapEngine.new p) (h2 : e2 = RemapEngine.new p) :
    (runEvents e1 events).emissions = (runEvents e2 events).emissions ∧
    (runEvents e1 events).handled = (runEvents e2 events).handled ∧
    (runEvents e1 events).engine.state = (runEvents e2 events).engine.state := by
  subst h1
  subst h2
  exact ⟨rfl, rfl, rfl⟩

/-- Witness for C10 at `simpleKeyProfile` over a one-event run. -/
theorem engine_runs_deterministic_witness :
    (runEvents (RemapEngine.new simpleKeyProfile) [⟨EV_KEY, 275, 1⟩]).emissions
      = (runEvents (RemapEngine.new simpleKeyProfile) [⟨EV_KEY, 275, 1⟩]).emissions ∧
    (runEvents (RemapEngine.new simpleKeyProfile) [⟨EV_KEY, 275, 1⟩]).handled
      = (runEvents (RemapEngine.new simpleKeyProfile) [⟨EV_KEY, 275, 1⟩]).handled ∧
    (runEvents (RemapEngine.new simpleKeyProfile) [⟨EV_KEY, 275, 1⟩]).engine.state
      = (runEvents (RemapEngine.new simpleKeyProfile) [⟨EV_KEY, 275, 1⟩]).engine.state :=
  engine_runs_deterministic simpleKeyProfile [⟨EV_KEY, 275, 1⟩] _ _ rfl rfl

/-- Claim C8 counterexample: `schema_to_evdev_code` is case-sensitive, so the
lower-cased name `"ctrl"` resolves to nothing while the canonical `"CTRL"`
resolves to `KEY_LEFTCTRL = 29` — not the same result. -/
theorem schema_resolution_case_sensitive :
    schema_to_evdev_code "ctrl" = none ∧ schema_to_evdev_code "CTRL" = some 29 := by
  decide

/-- Claim C8 amended: every canonical (stored-case) schema key name in the
closed set — every schema value of `EVDEV_TO_SCHEMA`, and every raw kernel
name it accepts — resolves to a numeric kernel code; resolution is
case-sensitive rather than case-insensitive. -/
theorem canonical_schema_names_resolve :
    (EVDEV_TO_SCHEMA.all fun kv =>
      (schema_to_evdev_code kv.2).isSome && (schema_to_evdev_code kv.1).isSome)
      = true := by decide

/-- Claim C7 (recorder merge window): wherever the compilation walk meets a
down event immediately followed by the matching up event of the same code,
with merging enabled: within 100 ms the pair compiles to exactly one
KEY_PRESS (after an optional DELAY from the preceding step) and no KEY_DOWN
or KEY_UP; beyond 100 ms it compiles to KEY_DOWN, an optional DELAY, then
KEY_UP, in that order.  `delay_steps` only ever produces DELAY steps. -/
theorem recorder_merge_window (cfg : RecorderConfig) (prev : Option Rat)
    (e1 e2 : RecordedEvent) (rest : List RecordedEvent)
    (hmerge : cfg.merge_press_release = true)
    (hcode : e2.code = e1.code) (hv1 : e1.value = 1) (hv2 : e2.value = 0) :
    ((e2.timestamp - e1.timestamp) * 1000 ≤ 100 →
      compile_events cfg prev (e1 :: e2 :: rest)
        = delay_steps cfg prev e1.timestamp
            ++ [{ type := MacroStepType.KEY_PRESS, key := some e1.key_name }]
            ++ compile_events cfg (some e2.timestamp) rest) ∧
    (¬ (e2.timestamp - e1.timestamp) * 1000 ≤ 100 →
      compile_events cfg prev (e1 :: e2 :: rest)
        = delay_steps cfg prev e1.timestamp
            ++ [{ type := MacroStepType.KEY_DOWN, key := some e1.key_name }]
            ++ delay_steps cfg (some e1.timestamp) e2.timestamp
            ++ [{ type := MacroStepType.KEY_UP, key := some e2.key_name }]
            ++ compile_events cfg (some e2.timestamp) rest) ∧
    (∀ p t, ∀ s ∈ delay_steps cfg p t, s.type = MacroStepType.DELAY) := by
  refine ⟨?_, ?_, ?_⟩
  · intro hle
    have hmergeable : mergeable cfg e1 (e2 :: rest) = true := by
      simp [mergeable, hmerge, hcode, hv2, hle]
    simp [compile_events, hv1, hmergeable, List.append_assoc]
  · intro hgt
    have hmergeable : mergeable cfg e1 (e2 :: rest) = false := by
      simp [mergeable, hmerge, hcode, hv2, hgt]
    cases rest with
    | nil =>
      simp [compile_events, hv1, hv2, hmergeable, step_for, List.append_assoc]
    | cons r rs =>
      simp [compile_events, hv1, hv2, hmergeable, step_for, List.append_assoc]
  · intro p t s hm
    unfold delay_steps at hm
    cases p with
    | none => cases hm
    | some tp =>
      dsimp only at hm
      split_ifs at hm
      · simp only [List.mem_singleton] at hm
        rw [hm]
      · cases hm
      · cases hm

/-- Witness for C7 (delay recording off, which the claim leaves optional):
`down(A)@1.0, up(A)@1.05` compiles to a single KEY_PRESS, while
`down(A)@1.0, up(A)@1.2` compiles to KEY_DOWN then KEY_UP. -/
theorem recorder_merge_window_witness :
    compile_events noDelayRecorderConfig none [recDownA, recUpAFast]
      = [{ type := MacroStepType.KEY_PRESS, key := some "A" }] ∧
    compile_events noDelayRecorderConfig none [recDownA, recUpASlow]
      = [{ type := MacroStepType.KEY_DOWN, key := some "A" },
         { type := MacroStepType.KEY_UP, key := some "A" }] := by
  have h1 := recorder_merge_window noDelayRecorderConfig none recDownA recUpAFast []
    rfl rfl rfl rfl
  have h2 := recorder_merge_window noDelayRecorderConfig none recDownA recUpASlow []
    rfl rfl rfl rfl
  have hfast : (recUpAFast.timestamp - recDownA.timestamp) * 1000 ≤ 100 := by
    norm_num [recUpAFast, recDownA]
  have hslow : ¬ (recUpASlow.timestamp - recDownA.timestamp) * 1000 ≤ 100 := by
    norm_num [recUpASlow, recDownA]
  constructor
  · rw [h1.1 hfast]
    simp [delay_steps, compile_events, noDelayRecorderConfig, recDownA]
  · rw [h2.2.1 hslow]
    simp [delay_steps, compile_events, noDelayRecorderConfig, recDownA, recUpASlow]

end RazerControls
